import Mathlib

/-! # ScanPopup: the scan-popup interaction state machine of `src/scanpopup.cc`

A shallow embedding of `ScanPopup` (GoldenDict's lookup-on-hover popup).  Every
member function of the class that touches the interaction state is a Lean
function on an explicit `State`; what the C++ reads from outside the object
(cursor position, screen rectangle, keyboard modifiers, clipboard, the
configuration object) is passed in as `Preferences` / `Env`.

Conventions
* `int` values are mathematical integers (`Int`).  Screen coordinates are far
  from the limits of `int`, and signed overflow is undefined in C++ anyway.
  C++ `/` on `int` truncates toward zero, which is `Int.tdiv`.
* `QString` is a list of `QChar`s, that is of UTF-16 code units; `size()` is
  its length, so a character outside the Basic Multilingual Plane counts as
  two.
* A `QTimer` is represented by its `isActive()` flag.  For `hideTimer`, whose
  `start()` on a running countdown moves the deadline, the number of `start()`
  calls is kept as well.
* Calls into collaborators (window system, article view, word finder,
  history) are recorded, in call order, in `State.effects`.
-/

namespace ScanPopup

/-! ## Qt value types -/

/-- A `QChar`: one UTF-16 code unit. -/
abbrev QChar := Fin 65536

/-- A `QString`: a sequence of UTF-16 code units. -/
abbrev QString := List QChar

/-- The UTF-16 code units of one Unicode character: the character itself
below U+10000, a surrogate pair from there on. -/
def utf16 (c : Char) : List QChar :=
  if c.toNat < 0x10000 then [Fin.ofNat c.toNat]
  else
    [Fin.ofNat (0xD800 + (c.toNat - 0x10000) / 0x400),
     Fin.ofNat (0xDC00 + (c.toNat - 0x10000) % 0x400)]

/-- The `QString` that holds a sequence of Unicode characters. -/
def toQString (cs : List Char) : QString :=
  (cs.map utf16).flatten

/-- The test `QChar::isSpace()` of Qt 4: the controls U+0009 to U+000D and
the characters of the Unicode categories Zs, Zl and Zp. -/
def QChar.isSpace (c : QChar) : Bool :=
  (9 ≤ c.val && c.val ≤ 13) || c.val = 0x20 || c.val = 0xA0 || c.val = 0x1680 ||
    c.val = 0x180E || (0x2000 ≤ c.val && c.val ≤ 0x200A) || c.val = 0x2028 ||
    c.val = 0x2029 || c.val = 0x202F || c.val = 0x205F || c.val = 0x3000

/-- The `QPoint` value type. -/
structure QPoint where
  x : Int
  y : Int
deriving DecidableEq, Repr

/-- The `QSize` value type. -/
structure QSize where
  width : Int
  height : Int
deriving DecidableEq, Repr

/-- The `QRect` value type.  Qt stores a rectangle by its first and last
pixel column/row, so a rectangle at `x` of width `w` has `x2 = x + w - 1`. -/
structure QRect where
  x1 : Int
  y1 : Int
  x2 : Int
  y2 : Int
deriving DecidableEq, Repr

namespace QRect

/-- The constructor `QRect(x, y, width, height)`. -/
def ofXYWH (x y w h : Int) : QRect := ⟨x, y, x + w - 1, y + h - 1⟩

/-- The accessor `QRect::x()`. -/
def x (r : QRect) : Int := r.x1
/-- The accessor `QRect::y()`. -/
def y (r : QRect) : Int := r.y1
/-- The accessor `QRect::width()`. -/
def width (r : QRect) : Int := r.x2 - r.x1 + 1
/-- The accessor `QRect::height()`. -/
def height (r : QRect) : Int := r.y2 - r.y1 + 1
/-- The accessor `QRect::size()`. -/
def size (r : QRect) : QSize := ⟨r.width, r.height⟩
/-- The accessor `QRect::topRight()`: the last pixel column, first row. -/
def topRight (r : QRect) : QPoint := ⟨r.x2, r.y1⟩
/-- The accessor `QRect::bottomLeft()`: the first pixel column, last row. -/
def bottomLeft (r : QRect) : QPoint := ⟨r.x1, r.y2⟩

/-- The method `QRect::adjusted(dx1, dy1, dx2, dy2)`. -/
def adjusted (r : QRect) (dx1 dy1 dx2 dy2 : Int) : QRect :=
  ⟨r.x1 + dx1, r.y1 + dy1, r.x2 + dx2, r.y2 + dy2⟩

/-- The method `QRect::contains(QPoint)` (edges included).  As in Qt, the two
ends of an axis are swapped first when the rectangle is inverted on it. -/
def contains (r : QRect) (p : QPoint) : Bool :=
  let l := if r.x2 < r.x1 - 1 then r.x2 else r.x1
  let rr := if r.x2 < r.x1 - 1 then r.x1 else r.x2
  let t := if r.y2 < r.y1 - 1 then r.y2 else r.y1
  let b := if r.y2 < r.y1 - 1 then r.y1 else r.y2
  !(decide (p.x < l) || decide (p.x > rr)) && !(decide (p.y < t) || decide (p.y > b))

end QRect

/-- The method `QString::trimmed()`: the characters with `isSpace()` removed
from both ends. -/
def trimmed (s : QString) : QString :=
  ((s.dropWhile QChar.isSpace).reverse.dropWhile QChar.isSpace).reverse

/-! ## Configuration, environment, effects, state -/

/-- The fields of `cfg.preferences` that `ScanPopup` reads. -/
structure Preferences where
  enableScanPopupModifiers : Bool
  scanPopupModifiers : Nat
  scanPopupAltMode : Bool
  scanPopupAltModeSecs : Nat
  pronounceOnLoadPopup : Bool
deriving DecidableEq, Repr

/-- The two clipboard buffers of `QClipboard::Mode` that the popup reads. -/
inductive ClipboardMode where
  | Clipboard
  | Selection
deriving DecidableEq, Repr

/-- What a handler reads from outside the object while it runs. -/
structure Env where
  /-- The answer of `checkModifiersPressed( mask )` for the live keyboard. -/
  checkModifiersPressed : Nat → Bool
  /-- The value of `QCursor::pos()`. -/
  cursorPos : QPoint
  /-- The value of `QApplication::desktop()->screenGeometry()`. -/
  screenGeometry : QRect
  /-- Whether `QApplication::mouseButtons() == Qt::NoButton`. -/
  noMouseButtons : Bool
  /-- The value of `QApplication::clipboard()->text( "plain", m )`. -/
  clipboardText : ClipboardMode → QString
  /-- The answer of `definition->closeSearch()`. -/
  closeSearch : Bool
  /-- The answer of `definition->hasSound()`. -/
  hasSound : Bool
  /-- Whether the build has `Q_WS_WIN` defined. -/
  qWsWin : Bool

/-- The two window decorations the popup switches between. -/
inductive WindowFlags where
  | popupWindowFlags
  | Dialog
deriving DecidableEq, Repr

/-- Calls into collaborators, recorded in call order. -/
inductive Effect where
  | move (x y : Int)
  | showWindow
  | hideWindow
  | activateWindow
  | raise
  | grabMouse
  | releaseMouse
  | installEventFilter
  | removeEventFilter
  | setCursorClosedHand
  | unsetCursor
  | setWindowFlags (f : WindowFlags)
  | showDefinition (word : QString) (group : Nat)
  | prefixMatch (word : QString)
  | historyAddItem (group : Nat) (word : QString)
  | historySave
  | playSound
  | menuExec (entries : List QString)
  | enableMouseOver
  | disableMouseOver
  | setLastPopupGroupId (group : Nat)
deriving DecidableEq, Repr

/-- The mutable state of a `ScanPopup` object and of the widgets it owns. -/
structure State where
  isScanningEnabled : Bool
  pendingInputWord : QString
  inputWord : QString
  mouseEnteredOnce : Bool
  mouseIntercepted : Bool
  /-- The flag `hideTimer.isActive()` (single-shot, 400 ms). -/
  hideTimer : Bool
  /-- How often `hideTimer.start()` has been called: each call begins a new
  400 ms countdown, also when one is already running. -/
  hideTimerStarts : Nat
  /-- The flag `altModePollingTimer.isActive()` (repeating, 50 ms). -/
  altModePollingTimer : Bool
  /-- The flag `altModeExpirationTimer.isActive()` (single-shot,
  `scanPopupAltModeSecs` seconds). -/
  altModeExpirationTimer : Bool
  /-- The flag `isVisible()`. -/
  visible : Bool
  /-- The flag `ui.pinButton->isChecked()`. -/
  pinChecked : Bool
  /-- The value of `pos()`: top-left corner of the window, frame included. -/
  pos : QPoint
  /-- The value of `geometry().size()`: the client area. -/
  size : QSize
  /-- Width of the window frame on the left / top / right / bottom. -/
  frameLeft : Nat
  frameTop : Nat
  frameRight : Nat
  frameBottom : Nat
  windowFlags : WindowFlags
  windowTitle : QString
  /-- The text of the label `ui.word`. -/
  wordText : QString
  queryErrorVisible : Bool
  queryErrorToolTip : QString
  wordListButtonVisible : Bool
  pronounceButtonVisible : Bool
  /-- Whether the widget cursor is `Qt::ClosedHandCursor`. -/
  closedHandCursor : Bool
  startPos : QPoint
  /-- The value of `ui.groupList->getCurrentGroup()`. -/
  currentGroup : Nat
  effects : List Effect
deriving DecidableEq, Repr

/-- The state right after the constructor: hidden, unpinned, nothing
intercepted, no timer running, both words empty. -/
def State.initial (size : QSize) (group : Nat) : State where
  isScanningEnabled := false
  pendingInputWord := []
  inputWord := []
  mouseEnteredOnce := false
  mouseIntercepted := false
  hideTimer := false
  hideTimerStarts := 0
  altModePollingTimer := false
  altModeExpirationTimer := false
  visible := false
  pinChecked := false
  pos := ⟨0, 0⟩
  size := size
  frameLeft := 0
  frameTop := 0
  frameRight := 0
  frameBottom := 0
  windowFlags := WindowFlags.popupWindowFlags
  windowTitle := []
  wordText := []
  queryErrorVisible := false
  queryErrorToolTip := []
  wordListButtonVisible := false
  pronounceButtonVisible := false
  closedHandCursor := false
  startPos := ⟨0, 0⟩
  currentGroup := group
  effects := []

/-- The value of `geometry()`: the client rectangle, frame excluded. -/
def State.geometry (s : State) : QRect :=
  QRect.ofXYWH (s.pos.x + s.frameLeft) (s.pos.y + s.frameTop) s.size.width s.size.height

/-- The value of `frameGeometry()`: the window rectangle, frame included. -/
def State.frameGeometry (s : State) : QRect :=
  QRect.ofXYWH s.pos.x s.pos.y
    (s.size.width + s.frameLeft + s.frameRight) (s.size.height + s.frameTop + s.frameBottom)

/-- Append one collaborator call to the record. -/
def State.emit (s : State) (e : Effect) : State :=
  { s with effects := s.effects ++ [e] }

/-! ## Member functions of `ScanPopup` -/

/-- The function `ScanPopup::elideInputWord`. -/
def elideInputWord (s : State) : QString :=
  if s.inputWord.length > 32 then s.inputWord.take 32 ++ toQString ['.', '.', '.']
  else s.inputWord

/-- The function `ScanPopup::interceptMouse`. -/
def interceptMouse (s : State) : State :=
  if !s.mouseIntercepted then
    { (s.emit Effect.grabMouse).emit Effect.installEventFilter with mouseIntercepted := true }
  else s

/-- The function `ScanPopup::uninterceptMouse`. -/
def uninterceptMouse (s : State) : State :=
  if s.mouseIntercepted then
    { (s.emit Effect.removeEventFilter).emit Effect.releaseMouse with mouseIntercepted := false }
  else s

/-- The call `hideTimer.start()`. -/
def startHideTimer (s : State) : State :=
  { s with hideTimer := true, hideTimerStarts := s.hideTimerStarts + 1 }

/-- The function `ScanPopup::hideWindow`. -/
def hideWindow (s : State) : State :=
  let s := uninterceptMouse s
  let s := { s with hideTimer := false }
  let s := { s.emit Effect.unsetCursor with closedHandCursor := false }
  { s.emit Effect.hideWindow with visible := false }

/-- The function `ScanPopup::initiateTranslation`. -/
def initiateTranslation (s : State) : State :=
  let s := { s with wordListButtonVisible := false }
  let s := { s with pronounceButtonVisible := false }
  let s := s.emit (Effect.showDefinition s.inputWord s.currentGroup)
  let s := s.emit (Effect.prefixMatch s.inputWord)
  let s := s.emit (Effect.historyAddItem s.currentGroup (trimmed s.inputWord))
  s.emit Effect.historySave

/-- The widget call `show()`. -/
def showWidget (s : State) : State :=
  { s.emit Effect.showWindow with visible := true }

/-- The widget call `move( x, y )`: the frame corner goes to `(x, y)`. -/
def moveWidget (x y : Int) (s : State) : State :=
  { s.emit (Effect.move x y) with pos := ⟨x, y⟩ }

/-- The function `ScanPopup::engagePopup`. -/
def engagePopup (env : Env) (giveFocus : Bool) (s : State) : State :=
  let s := { s with wordText := elideInputWord s }
  let s :=
    if !s.visible then
      let s :=
        if !s.pinChecked then
          let currentPos := env.cursorPos
          let desktop := env.screenGeometry
          let windowSize := s.geometry.size
          let x :=
            if currentPos.x + 4 + windowSize.width ≤ desktop.topRight.x then
              currentPos.x + 4
            else if currentPos.x - 4 - windowSize.width ≥ desktop.x then
              currentPos.x - 4 - windowSize.width
            else
              desktop.x + Int.tdiv (desktop.width - windowSize.width) 2
          let y :=
            if currentPos.y + 15 + windowSize.height ≤ desktop.bottomLeft.y then
              currentPos.y + 15
            else if currentPos.y - 15 - windowSize.height ≥ desktop.y then
              currentPos.y - 15 - windowSize.height
            else
              desktop.y + Int.tdiv (desktop.height - windowSize.height) 2
          moveWidget x y s
        else s
      let s := showWidget s
      let s := if giveFocus then (s.emit Effect.activateWindow).emit Effect.raise else s
      if !s.pinChecked then
        interceptMouse { s with mouseEnteredOnce := false }
      else s
    else if s.pinChecked then
      ((showWidget s).emit Effect.activateWindow).emit Effect.raise
    else s
  initiateTranslation s

/-- The function `ScanPopup::enableScanning`. -/
def enableScanning (s : State) : State :=
  if !s.isScanningEnabled then
    { s with isScanningEnabled := true }.emit Effect.enableMouseOver
  else s

/-- The function `ScanPopup::disableScanning`. -/
def disableScanning (s : State) : State :=
  if s.isScanningEnabled then
    { s.emit Effect.disableMouseOver with isScanningEnabled := false }
  else s

/-- The function `ScanPopup::translateWordFromClipboard( QClipboard::Mode )`.
The parameter `trim` is `Folding::trimWhitespaceOrPunct` (through the two
string conversions), which lives in another file. -/
def translateWordFromClipboard (trim : QString → QString) (env : Env) (m : ClipboardMode)
    (s : State) : State :=
  let str := env.clipboardText m
  let s := { s with pendingInputWord := trim str }
  let str := s.pendingInputWord
  if str.length = 0 then s
  else
    let s := { s with altModePollingTimer := false }
    let s := { s with altModeExpirationTimer := false }
    let s := { s with inputWord := str }
    engagePopup env env.qWsWin s

/-- The function `ScanPopup::handleInputWord`; `trim` as above. -/
def handleInputWord (trim : QString → QString) (cfg : Preferences) (env : Env) (str : QString)
    (s : State) : State :=
  let s := { s with pendingInputWord := trim str }
  if s.pendingInputWord.length = 0 then
    if cfg.scanPopupAltMode then
      let s := { s with altModePollingTimer := false }
      { s with altModeExpirationTimer := false }
    else s
  else if cfg.enableScanPopupModifiers && !env.checkModifiersPressed cfg.scanPopupModifiers then
    if cfg.scanPopupAltMode then
      let s := { s with altModePollingTimer := true }
      { s with altModeExpirationTimer := true }
    else s
  else
    let s := { s with inputWord := s.pendingInputWord }
    engagePopup env false s

/-- The function `ScanPopup::clipboardChanged`. -/
def clipboardChanged (trim : QString → QString) (cfg : Preferences) (env : Env)
    (m : ClipboardMode) (s : State) : State :=
  if !s.isScanningEnabled then s
  else handleInputWord trim cfg env (env.clipboardText m) s

/-- The function `ScanPopup::mouseHovered`. -/
def mouseHovered (trim : QString → QString) (cfg : Preferences) (env : Env) (str : QString)
    (s : State) : State :=
  handleInputWord trim cfg env str s

/-- The events `eventFilter` tells apart: a pointer motion at a global
position, or anything else. -/
inductive QEvent where
  | MouseMove (globalPos : QPoint)
  | Other
deriving DecidableEq, Repr

/-- The function `ScanPopup::eventFilter`, as a state change (its return value
is that of `QDialog::eventFilter`).  The flag `watchedIsThis` is
`watched == this`. -/
def eventFilter (watchedIsThis : Bool) (event : QEvent) (s : State) : State :=
  if s.mouseIntercepted then
    match event with
    | QEvent.MouseMove globalPos =>
      if s.geometry.contains globalPos then
        let s := { s with hideTimer := false }
        let s := { s with mouseEnteredOnce := true }
        uninterceptMouse s
      else
        let proximity : Int := if s.mouseEnteredOnce then 0 else 60
        if watchedIsThis &&
            !(s.frameGeometry.adjusted (-proximity) (-proximity) proximity proximity).contains
              globalPos then
          if !s.mouseEnteredOnce then hideWindow s
          else startHideTimer s
        else s
    | QEvent.Other => s
  else s

/-- The function `ScanPopup::mousePressEvent`. -/
def mousePressEvent (globalPos : QPoint) (s : State) : State :=
  if !s.frameGeometry.contains globalPos then hideWindow s
  else
    let s := { s with startPos := globalPos }
    { s.emit Effect.setCursorClosedHand with closedHandCursor := true }

/-- The function `ScanPopup::mouseMoveEvent`; `buttons` is whether
`event->buttons()` is non-zero. -/
def mouseMoveEvent (buttons : Bool) (globalPos : QPoint) (s : State) : State :=
  if buttons && s.closedHandCursor then
    let newPos := globalPos
    let delta : QPoint := ⟨newPos.x - s.startPos.x, newPos.y - s.startPos.y⟩
    let s := { s with startPos := newPos }
    moveWidget (s.pos.x + delta.x) (s.pos.y + delta.y) s
  else s

/-- The function `ScanPopup::mouseReleaseEvent`. -/
def mouseReleaseEvent (s : State) : State :=
  { s.emit Effect.unsetCursor with closedHandCursor := false }

/-- The function `ScanPopup::leaveEvent`. -/
def leaveEvent (env : Env) (s : State) : State :=
  if !s.pinChecked && !s.geometry.contains env.cursorPos && env.noMouseButtons then
    startHideTimer s
  else s

/-- The function `ScanPopup::enterEvent`. -/
def enterEvent (s : State) : State :=
  if s.mouseEnteredOnce then { s with hideTimer := false } else s

/-- The function `ScanPopup::currentGroupChanged`. -/
def currentGroupChanged (s : State) : State :=
  let s := if s.visible then initiateTranslation s else s
  s.emit (Effect.setLastPopupGroupId s.currentGroup)

/-- The function `ScanPopup::getActiveDicts`: `none` stands for an index
outside `groups`. -/
def getActiveDicts {α : Type} (allDictionaries : List α) (groups : List (List α))
    (currentGroup : Int) : Option (List α) :=
  if currentGroup < 0 || currentGroup ≥ (groups.length : Int) then some allDictionaries
  else groups[currentGroup.toNat]?

/-- The function `ScanPopup::prefixMatchFinished`; the two arguments are
`wordFinder.getErrorString()` and `wordFinder.getResults()`. -/
def prefixMatchFinished (errorString : QString) (results : List (QString × Bool))
    (s : State) : State :=
  if s.visible then
    let s :=
      if errorString.length ≠ 0 then
        let s := { s with queryErrorToolTip := errorString }
        { s with queryErrorVisible := true }
      else { s with queryErrorVisible := false }
    { s with wordListButtonVisible := decide (results.length ≠ 0) }
  else s

/-- The `for` loop of `on_wordListButton_clicked`, from loop variable `x` and
bound `total` with the entries `menu` added so far.  `none` stands for an
index outside `results` or for running out of `fuel`. -/
def wordListLoop (results : List (QString × Bool)) :
    Nat → Nat → Nat → List QString → Option (List QString)
  | 0, _, _, _ => none
  | fuel + 1, x, total, menu =>
    if x < total then
      match results[x]? with
      | none => none
      | some r =>
        if r.1.length > 64 then
          if total < results.length then wordListLoop results fuel (x + 1) (total + 1) menu
          else wordListLoop results fuel (x + 1) total menu
        else wordListLoop results fuel (x + 1) total (menu ++ [r.1])
    else some menu

/-- The menu that `on_wordListButton_clicked` builds for `results`. -/
def wordListMenu (results : List (QString × Bool)) : Option (List QString) :=
  let total := if results.length < 40 then results.length else 40
  wordListLoop results (results.length + 1) 0 total []

/-- The function `ScanPopup::on_wordListButton_clicked`; `results` is
`wordFinder.getResults()` and `choice` is the entry the user picks in
`menu.exec` (`none`: the menu is dismissed). -/
def on_wordListButton_clicked (results : List (QString × Bool)) (choice : Option Nat)
    (s : State) : Option State :=
  if !s.visible then some s
  else if results.isEmpty then some s
  else
    match wordListMenu results with
    | none => none
    | some menu =>
      let s := s.emit (Effect.menuExec menu)
      match choice.bind (fun i => menu[i]?) with
      | some text => some (s.emit (Effect.showDefinition text s.currentGroup))
      | none => some s

/-- The function `ScanPopup::on_pronounceButton_clicked`. -/
def on_pronounceButton_clicked (s : State) : State :=
  s.emit Effect.playSound

/-- The widget call `setWindowFlags( f )`.  Qt re-creates the native window
here, and the `show()` that ends `pinButtonClicked` puts it back on screen; no
code of the class reads `isVisible()` in between, so the flag is left as it
is. -/
def setWindowFlags (f : WindowFlags) (s : State) : State :=
  { s.emit (Effect.setWindowFlags f) with windowFlags := f }

/-- The function `ScanPopup::pinButtonClicked`. -/
def pinButtonClicked (checked : Bool) (s : State) : State :=
  let s :=
    if checked then
      let s := uninterceptMouse s
      let s := setWindowFlags WindowFlags.Dialog s
      let s := { s with windowTitle := elideInputWord s }
      { s with hideTimer := false }
    else
      let s := setWindowFlags WindowFlags.popupWindowFlags s
      { s with mouseEnteredOnce := true }
  showWidget s

/-- The function `ScanPopup::hideTimerExpired`. -/
def hideTimerExpired (s : State) : State :=
  if s.visible then hideWindow s else s

/-- The function `ScanPopup::altModeExpired`. -/
def altModeExpired (s : State) : State :=
  { s with altModePollingTimer := false }

/-- The function `ScanPopup::altModePoll`. -/
def altModePoll (cfg : Preferences) (env : Env) (s : State) : State :=
  if s.pendingInputWord.length = 0 then
    let s := { s with altModePollingTimer := false }
    { s with altModeExpirationTimer := false }
  else if env.checkModifiersPressed cfg.scanPopupModifiers then
    let s := { s with altModePollingTimer := false }
    let s := { s with altModeExpirationTimer := false }
    let s := { s with inputWord := s.pendingInputWord }
    engagePopup env false s
  else s

/-- The function `ScanPopup::pageLoaded`. -/
def pageLoaded (cfg : Preferences) (env : Env) (s : State) : State :=
  let s := { s with pronounceButtonVisible := env.hasSound }
  if cfg.pronounceOnLoadPopup then s.emit Effect.playSound else s

/-- The function `ScanPopup::escapePressed`. -/
def escapePressed (env : Env) (s : State) : State :=
  if !env.closeSearch then hideWindow s else s

/-! ## The popup as a transition system

Every signal or event Qt can deliver to the object is an `Event`; `step` runs
the connected slot or handler.  Three deliveries do a little work of Qt's own
before the slot runs:
* `clicked( bool )` of the checkable pin button carries the new check state,
  which `ui.pinButton->isChecked()` returns from then on;
* a single-shot timer (`hideTimer`, `altModeExpirationTimer`) is inactive by the
  time its `timeout()` slot runs; the repeating `altModePollingTimer` stays active;
* a timer that is not active does not fire.
-/

/-- The events the popup reacts to. -/
inductive Event where
  | mouseHovered (str : QString)
  | clipboardChanged (m : ClipboardMode)
  | translateWordFromClipboard (m : ClipboardMode)
  | engagePopup (giveFocus : Bool)
  | eventFilter (watchedIsThis : Bool) (event : QEvent)
  | mousePressEvent (globalPos : QPoint)
  | mouseMoveEvent (buttons : Bool) (globalPos : QPoint)
  | mouseReleaseEvent
  | leaveEvent
  | enterEvent
  | pinButtonClicked (checked : Bool)
  | hideTimerTimeout
  | altModeExpirationTimeout
  | altModePollingTimeout
  | escapePressed
  | prefixMatchFinished (errorString : QString) (results : List (QString × Bool))
  | wordListButtonClicked (results : List (QString × Bool)) (choice : Option Nat)
  | pronounceButtonClicked
  | pageLoaded
  | currentGroupChanged (group : Nat)
  | enableScanning
  | disableScanning

/-- The signal `clicked( checked )` of the pin button, delivered to
`pinButtonClicked`. -/
def pinButtonSignal (checked : Bool) (s : State) : State :=
  pinButtonClicked checked { s with pinChecked := checked }

/-- One event: the slot or handler connected to it runs on the state. -/
def step (trim : QString → QString) (cfg : Preferences) (env : Env) (e : Event)
    (s : State) : State :=
  match e with
  | Event.mouseHovered str => mouseHovered trim cfg env str s
  | Event.clipboardChanged m => clipboardChanged trim cfg env m s
  | Event.translateWordFromClipboard m => translateWordFromClipboard trim env m s
  | Event.engagePopup giveFocus => engagePopup env giveFocus s
  | Event.eventFilter watchedIsThis event => eventFilter watchedIsThis event s
  | Event.mousePressEvent globalPos => mousePressEvent globalPos s
  | Event.mouseMoveEvent buttons globalPos => mouseMoveEvent buttons globalPos s
  | Event.mouseReleaseEvent => mouseReleaseEvent s
  | Event.leaveEvent => leaveEvent env s
  | Event.enterEvent => enterEvent s
  | Event.pinButtonClicked checked => pinButtonSignal checked s
  | Event.hideTimerTimeout =>
    if s.hideTimer then hideTimerExpired { s with hideTimer := false } else s
  | Event.altModeExpirationTimeout =>
    if s.altModeExpirationTimer then altModeExpired { s with altModeExpirationTimer := false }
    else s
  | Event.altModePollingTimeout =>
    if s.altModePollingTimer then altModePoll cfg env s else s
  | Event.escapePressed => escapePressed env s
  | Event.prefixMatchFinished errorString results => prefixMatchFinished errorString results s
  | Event.wordListButtonClicked results choice =>
    (on_wordListButton_clicked results choice s).getD s
  | Event.pronounceButtonClicked => on_pronounceButton_clicked s
  | Event.pageLoaded => pageLoaded cfg env s
  | Event.currentGroupChanged group => currentGroupChanged { s with currentGroup := group }
  | Event.enableScanning => enableScanning s
  | Event.disableScanning => disableScanning s

/-- A run: each event comes with the configuration and the environment it
is delivered in. -/
def run (trim : QString → QString) (s : State) : List (Preferences × Env × Event) → State
  | [] => s
  | (cfg, env, e) :: rest => run trim (step trim cfg env e s) rest

/-! ## Notions used in the statements -/

/-- The grab invariant: while pointer motion is intercepted the popup is
visible and unpinned. -/
def GrabInv (s : State) : Prop :=
  s.mouseIntercepted = true → s.visible = true ∧ s.pinChecked = false

/-- The collaborator calls of one lookup by `initiateTranslation`: the
definition view and the word finder are given the committed word, and the
history gets one entry, which is saved. -/
def lookupCalls (s : State) : List Effect :=
  [Effect.showDefinition s.inputWord s.currentGroup, Effect.prefixMatch s.inputWord,
   Effect.historyAddItem s.currentGroup (trimmed s.inputWord), Effect.historySave]

/-- Whether a collaborator call belongs to a lookup. -/
def Effect.isLookup : Effect → Bool
  | Effect.showDefinition _ _ => true
  | Effect.prefixMatch _ => true
  | Effect.historyAddItem _ _ => true
  | Effect.historySave => true
  | _ => false

/-- The window-system calls of `engagePopup`, before its lookup. -/
def engageWindowCalls (env : Env) (giveFocus : Bool) (s : State) : List Effect :=
  if s.visible then
    if s.pinChecked then [Effect.showWindow, Effect.activateWindow, Effect.raise] else []
  else
    (if s.pinChecked then []
      else [Effect.move (engagePopup env giveFocus s).pos.x (engagePopup env giveFocus s).pos.y])
    ++ [Effect.showWindow]
    ++ (if giveFocus then [Effect.activateWindow, Effect.raise] else [])
    ++ (if s.pinChecked || s.mouseIntercepted then []
      else [Effect.grabMouse, Effect.installEventFilter])

/-- The raw text an input event carries: the hovered text, or the text of
the clipboard buffer that changed or that the hotkey reads. -/
def Event.rawText (env : Env) : Event → Option QString
  | Event.mouseHovered str => some str
  | Event.clipboardChanged m => some (env.clipboardText m)
  | Event.translateWordFromClipboard m => some (env.clipboardText m)
  | _ => none

/-- The normalized text of an event that reaches `handleInputWord` or
`translateWordFromClipboard` in state `s` (a clipboard change does so only
while scanning is enabled); `none` for every other event. -/
def inputOf (trim : QString → QString) (env : Env) (s : State) : Event → Option QString
  | Event.mouseHovered str => some (trim str)
  | Event.clipboardChanged m =>
    if s.isScanningEnabled then some (trim (env.clipboardText m)) else none
  | Event.translateWordFromClipboard m => some (trim (env.clipboardText m))
  | _ => none

/-- The normalized text of the most recent input event of a run from `s`;
`last` when the run has none. -/
def lastInput (trim : QString → QString) :
    State → Option QString → List (Preferences × Env × Event) → Option QString
  | _, last, [] => last
  | s, last, (cfg, env, e) :: rest =>
    lastInput trim (step trim cfg env e s)
      (match inputOf trim env s e with
        | some w => some w
        | none => last) rest

/-- The words of `results` that are at most 64 UTF-16 code units long, in
their original order. -/
def shortWords (results : List (QString × Bool)) : List QString :=
  (results.map Prod.fst).filter (fun w => decide (w.length ≤ 64))

/-- The menu as the specification describes it, with the length of a word
taken as its `size()`: the first `min(40, k)` results of at most 64 code
units, `k` being the number of such results. -/
def specMenu (results : List (QString × Bool)) : List QString :=
  (shortWords results).take (min 40 (shortWords results).length)

/-- The alt-mode timer invariant: the polling timer runs only while the
expiration timer runs. -/
def AltTimerInv (s : State) : Prop :=
  s.altModePollingTimer = true → s.altModeExpirationTimer = true

/-- The never-entered invariant: while pointer motion is intercepted the
pointer has not been inside the popup. -/
def NeverEnteredInv (s : State) : Prop :=
  s.mouseIntercepted = true → s.mouseEnteredOnce = false

/-- Whether an event respects the pin checkbox in state `s`: a
`clicked( c )` of the pin button arrives only when the checkbox was not `c`
before; every other event passes. -/
def Event.flipsPin (s : State) : Event → Bool
  | Event.pinButtonClicked checked => s.pinChecked != checked
  | _ => true

/-- Whether every pin-button event of a run from `s` flips the checkbox. -/
def pinFlips (trim : QString → QString) : State → List (Preferences × Env × Event) → Bool
  | _, [] => true
  | s, (cfg, env, e) :: rest => e.flipsPin s && pinFlips trim (step trim cfg env e s) rest

/-- The waiting invariant: a visible, unpinned popup that the pointer has not
entered yet is intercepting pointer motion. -/
def WaitingInv (s : State) : Prop :=
  s.visible = true → s.pinChecked = false → s.mouseEnteredOnce = false →
    s.mouseIntercepted = true

/-! ## Sample data used to instantiate the theorems -/

/-- The word "cat". -/
def sampleCat : QString := toQString ['c', 'a', 't']

/-- The word "dog". -/
def sampleDog : QString := toQString ['d', 'o', 'g']

/-- A single blank. -/
def sampleBlank : QString := toQString [' ']

/-- A sample environment: a 1920x1080 screen at the origin, cursor at
`(1900, 500)`, no modifier held, empty clipboard. -/
def sampleEnv : Env where
  checkModifiersPressed := fun _ => false
  cursorPos := ⟨1900, 500⟩
  screenGeometry := QRect.ofXYWH 0 0 1920 1080
  noMouseButtons := true
  clipboardText := fun _ => []
  closeSearch := false
  hasSound := false
  qWsWin := false

/-- A sample hidden, unpinned popup of size 300x200. -/
def sampleState : State := State.initial ⟨300, 200⟩ 0

/-- A sample configuration: no modifier gating, no alt mode. -/
def sampleCfg : Preferences where
  enableScanPopupModifiers := false
  scanPopupModifiers := 0
  scanPopupAltMode := false
  scanPopupAltModeSecs := 2
  pronounceOnLoadPopup := false

/-- A sample run: the word "cat" is hovered (the popup appears at
`(1596, 515)`), then the pointer moves to `(1600, 520)`, inside the popup. -/
def sampleEnterTrace : List (Preferences × Env × Event) :=
  [(sampleCfg, sampleEnv, Event.mouseHovered sampleCat),
   (sampleCfg, sampleEnv, Event.eventFilter true (QEvent.MouseMove ⟨1600, 520⟩))]

/-- The sample popup right after the word "cat" was hovered: shown at
`(1596, 515)`, unpinned, intercepting, the pointer not yet inside. -/
def sampleShown : State :=
  run id sampleState [(sampleCfg, sampleEnv, Event.mouseHovered sampleCat)]

/-- The sample popup after "cat" was hovered and `pinButtonClicked( false )`
ran: shown, unpinned, intercepting, with `mouseEnteredOnce` set. -/
def sampleEntered : State :=
  run id sampleState
    [(sampleCfg, sampleEnv, Event.mouseHovered sampleCat),
     (sampleCfg, sampleEnv, Event.pinButtonClicked false)]

/-- A sample configuration with modifier gating (mask 1) and alt mode. -/
def sampleAltCfg : Preferences where
  enableScanPopupModifiers := true
  scanPopupModifiers := 1
  scanPopupAltMode := true
  scanPopupAltModeSecs := 2
  pronounceOnLoadPopup := false

/-- A sample configuration with modifier gating (mask 1) and no alt mode. -/
def sampleGatedCfg : Preferences where
  enableScanPopupModifiers := true
  scanPopupModifiers := 1
  scanPopupAltMode := false
  scanPopupAltModeSecs := 2
  pronounceOnLoadPopup := false

/-- The sample environment with every required modifier held. -/
def sampleHeldEnv : Env :=
  { sampleEnv with checkModifiersPressed := fun _ => true }

/-- A sample run under gating with alt mode and no modifier held: "cat" is
hovered, then "dog" is hovered before anything was committed. -/
def sampleSupersedeTrace : List (Preferences × Env × Event) :=
  [(sampleAltCfg, sampleEnv, Event.mouseHovered sampleCat),
   (sampleAltCfg, sampleEnv, Event.mouseHovered sampleDog)]

/-- Sample match results: "cat", a word of 65 characters, "dog". -/
def sampleResults : List (QString × Bool) :=
  [(sampleCat, true), (toQString (List.replicate 65 'x'), false), (sampleDog, true)]

/-- The sample popup with the 9-character word "ephemeral" committed. -/
def sampleEphemeral : State :=
  { sampleShown with inputWord := toQString ['e', 'p', 'h', 'e', 'm', 'e', 'r', 'a', 'l'] }

/-- The sample popup with a 40-character word committed. -/
def sampleLongWord : State :=
  { sampleShown with
      inputWord := toQString (List.replicate 32 'a' ++ List.replicate 8 'b') }

/-- A word of 20 characters, each U+1F600 (outside the Basic Multilingual
Plane), hence of 40 UTF-16 code units. -/
def sampleEmojiWord : QString := toQString (List.replicate 20 (Char.ofNat 0x1F600))

/-- The sample popup with the 20-character word of U+1F600 committed. -/
def sampleEmoji : State :=
  { sampleShown with inputWord := sampleEmojiWord }

/-- Sample match results: one word of 40 characters, each U+1F600, hence of
80 UTF-16 code units. -/
def sampleEmojiResults : List (QString × Bool) :=
  [(toQString (List.replicate 40 (Char.ofNat 0x1F600)), true)]

/-- The matcher's error string "timeout". -/
def sampleTimeout : QString := toQString ['t', 'i', 'm', 'e', 'o', 'u', 't']

/-- Sample dictionary groups (dictionaries are numbered): two groups. -/
def sampleGroups : List (List Nat) := [[1, 2], [3]]

/-- The sample set of all dictionaries. -/
def sampleAllDictionaries : List Nat := [1, 2, 3, 4]

/-- The sample environment with the cursor moved to `(100, 100)`. -/
def sampleMovedEnv : Env :=
  { sampleEnv with cursorPos := ⟨100, 100⟩ }

/-- A sample run under gating with alt mode and no modifier held: "cat" is
hovered, then the hotkey reads the (empty) clipboard. -/
def sampleEmptyReadTrace : List (Preferences × Env × Event) :=
  [(sampleAltCfg, sampleEnv, Event.mouseHovered sampleCat),
   (sampleAltCfg, sampleEnv, Event.translateWordFromClipboard ClipboardMode.Clipboard)]

/-- The sample environment with the cursor at `(1616, 865)`: a 300x200 popup
put 4 right of and 15 below it ends exactly at the last column and row of the
1920x1080 screen. -/
def sampleEdgeEnv : Env :=
  { sampleEnv with cursorPos := ⟨1616, 865⟩ }

/-- A sample run: "cat" is hovered, the popup is pinned, unpinned and closed
with the escape key, then "dog" is hovered. -/
def samplePinTrace : List (Preferences × Env × Event) :=
  [(sampleCfg, sampleEnv, Event.mouseHovered sampleCat),
   (sampleCfg, sampleEnv, Event.pinButtonClicked true),
   (sampleCfg, sampleEnv, Event.pinButtonClicked false),
   (sampleCfg, sampleEnv, Event.escapePressed),
   (sampleCfg, sampleEnv, Event.mouseHovered sampleDog)]

/-! # Theorems -/

/-! ## Placement -/

/-- The client rectangle has the width of the client area. -/
theorem geometry_size_width (s : State) : s.geometry.size.width = s.size.width := by
  simp only [State.geometry, QRect.size, QRect.width, QRect.ofXYWH]; omega

/-- The client rectangle has the height of the client area. -/
theorem geometry_size_height (s : State) : s.geometry.size.height = s.size.height := by
  simp only [State.geometry, QRect.size, QRect.height, QRect.ofXYWH]; omega

/-- Where `engagePopup` moves a hidden, unpinned popup. -/
theorem engagePopup_pos (env : Env) (giveFocus : Bool) (s : State)
    (hv : s.visible = false) (hp : s.pinChecked = false) :
    (engagePopup env giveFocus s).pos =
      ⟨if env.cursorPos.x + 4 + s.size.width ≤ env.screenGeometry.topRight.x then
          env.cursorPos.x + 4
        else if env.cursorPos.x - 4 - s.size.width ≥ env.screenGeometry.x then
          env.cursorPos.x - 4 - s.size.width
        else env.screenGeometry.x + Int.tdiv (env.screenGeometry.width - s.size.width) 2,
       if env.cursorPos.y + 15 + s.size.height ≤ env.screenGeometry.bottomLeft.y then
          env.cursorPos.y + 15
        else if env.cursorPos.y - 15 - s.size.height ≥ env.screenGeometry.y then
          env.cursorPos.y - 15 - s.size.height
        else env.screenGeometry.y + Int.tdiv (env.screenGeometry.height - s.size.height) 2⟩ := by
  cases giveFocus <;> cases hi : s.mouseIntercepted <;>
    simp [engagePopup, initiateTranslation, interceptMouse, showWidget, moveWidget,
      State.emit, hv, hp, hi, geometry_size_width, geometry_size_height]

/-- The collaborator calls of `engagePopup` on a hidden, unpinned popup. -/
theorem engagePopup_effects_of_hidden_unpinned (env : Env) (giveFocus : Bool) (s : State)
    (hv : s.visible = false) (hp : s.pinChecked = false) :
    (engagePopup env giveFocus s).effects =
      s.effects ++ [Effect.move (engagePopup env giveFocus s).pos.x
          (engagePopup env giveFocus s).pos.y, Effect.showWindow]
        ++ (if giveFocus then [Effect.activateWindow, Effect.raise] else [])
        ++ (if s.mouseIntercepted then [] else [Effect.grabMouse, Effect.installEventFilter])
        ++ [Effect.showDefinition s.inputWord s.currentGroup, Effect.prefixMatch s.inputWord,
            Effect.historyAddItem s.currentGroup (trimmed s.inputWord), Effect.historySave] := by
  rw [engagePopup_pos env giveFocus s hv hp]
  cases giveFocus <;> cases hi : s.mouseIntercepted <;>
    simp [engagePopup, initiateTranslation, interceptMouse, showWidget, moveWidget,
      State.emit, hv, hp, hi, geometry_size_width, geometry_size_height]

/-- C1 (placement fallback order).  On a hidden, unpinned popup `engagePopup`
moves the window to `(x, y)` where, with `R = desktop.topRight().x()` and
`B = desktop.bottomLeft().y()`, `x` is `cx + 4` if `cx + 4 + w <= R`, else
`cx - 4 - w` if `cx - 4 - w >= X`, else `X + (W - w) / 2`, and `y` is `cy + 15`
if `cy + 15 + h <= B`, else `cy - 15 - h` if `cy - 15 - h >= Y`, else
`Y + (H - h) / 2`; that move is the only one issued.  `x` is the same in any
other call that agrees on the horizontal inputs, `y` in any that agrees on the
vertical ones; and when right-of-cursor placement does not fit while
left-of-cursor placement does, the popup goes left of the cursor. -/
theorem C1_placement_fallback_order (env : Env) (giveFocus : Bool) (s : State)
    (hv : s.visible = false) (hp : s.pinChecked = false) :
    (engagePopup env giveFocus s).pos =
        ⟨if env.cursorPos.x + 4 + s.size.width ≤ env.screenGeometry.topRight.x then
            env.cursorPos.x + 4
          else if env.cursorPos.x - 4 - s.size.width ≥ env.screenGeometry.x then
            env.cursorPos.x - 4 - s.size.width
          else env.screenGeometry.x + Int.tdiv (env.screenGeometry.width - s.size.width) 2,
         if env.cursorPos.y + 15 + s.size.height ≤ env.screenGeometry.bottomLeft.y then
            env.cursorPos.y + 15
          else if env.cursorPos.y - 15 - s.size.height ≥ env.screenGeometry.y then
            env.cursorPos.y - 15 - s.size.height
          else env.screenGeometry.y + Int.tdiv (env.screenGeometry.height - s.size.height) 2⟩
      ∧ (∃ rest, (engagePopup env giveFocus s).effects =
            s.effects ++ Effect.move (engagePopup env giveFocus s).pos.x
              (engagePopup env giveFocus s).pos.y :: rest
            ∧ ∀ a b, Effect.move a b ∉ rest)
      ∧ (∀ (env2 : Env) (giveFocus2 : Bool) (s2 : State),
          s2.visible = false → s2.pinChecked = false →
          env2.cursorPos.x = env.cursorPos.x → s2.size.width = s.size.width →
          env2.screenGeometry.x1 = env.screenGeometry.x1 →
          env2.screenGeometry.x2 = env.screenGeometry.x2 →
          (engagePopup env2 giveFocus2 s2).pos.x = (engagePopup env giveFocus s).pos.x)
      ∧ (∀ (env2 : Env) (giveFocus2 : Bool) (s2 : State),
          s2.visible = false → s2.pinChecked = false →
          env2.cursorPos.y = env.cursorPos.y → s2.size.height = s.size.height →
          env2.screenGeometry.y1 = env.screenGeometry.y1 →
          env2.screenGeometry.y2 = env.screenGeometry.y2 →
          (engagePopup env2 giveFocus2 s2).pos.y = (engagePopup env giveFocus s).pos.y)
      ∧ (¬ env.cursorPos.x + 4 + s.size.width ≤ env.screenGeometry.topRight.x →
          env.cursorPos.x - 4 - s.size.width ≥ env.screenGeometry.x →
          (engagePopup env giveFocus s).pos.x = env.cursorPos.x - 4 - s.size.width) := by
  have key := engagePopup_pos env giveFocus s hv hp
  refine ⟨key, ?_, ?_, ?_, ?_⟩
  · rw [engagePopup_effects_of_hidden_unpinned env giveFocus s hv hp]
    refine ⟨_, by simp only [List.append_assoc, List.cons_append, List.nil_append]; rfl, ?_⟩
    intro a b
    cases giveFocus <;> cases s.mouseIntercepted <;> simp
  · intro env2 giveFocus2 s2 hv2 hp2 hc hw h1 h2
    rw [engagePopup_pos env2 giveFocus2 s2 hv2 hp2, key]
    simp only [QRect.topRight, QRect.x, QRect.width, hc, hw, h1, h2]
  · intro env2 giveFocus2 s2 hv2 hp2 hc hw h1 h2
    rw [engagePopup_pos env2 giveFocus2 s2 hv2 hp2, key]
    simp only [QRect.bottomLeft, QRect.y, QRect.height, hc, hw, h1, h2]
  · intro hr hl
    rw [key]
    simp only [if_neg hr, if_pos hl]

/-- Witness for C1: a 300x200 popup with the cursor at `(1900, 500)` on a
1920x1080 screen goes left of and below the cursor. -/
theorem C1_placement_fallback_order_witness :
    sampleState.visible = false ∧ sampleState.pinChecked = false ∧
      (engagePopup sampleEnv false sampleState).pos = ⟨1596, 515⟩ :=
  ⟨rfl, rfl, (C1_placement_fallback_order sampleEnv false sampleState rfl rfl).1.trans
    (by decide)⟩

/-! ## Interception and the lifecycle state -/

/-- The grab invariant only looks at three fields. -/
theorem GrabInv.congr {s t : State} (h : GrabInv s)
    (hi : t.mouseIntercepted = s.mouseIntercepted) (hv : t.visible = s.visible)
    (hp : t.pinChecked = s.pinChecked) : GrabInv t := by
  unfold GrabInv at *
  rw [hi, hv, hp]
  exact h

/-- After `hideWindow` nothing is intercepted, the countdown is off and the
popup is hidden. -/
theorem hideWindow_fields (s : State) :
    (hideWindow s).mouseIntercepted = false ∧ (hideWindow s).hideTimer = false ∧
      (hideWindow s).visible = false ∧ (hideWindow s).pinChecked = s.pinChecked := by
  cases hi : s.mouseIntercepted <;> simp [hideWindow, uninterceptMouse, State.emit, hi]

/-- The function `hideWindow` establishes the grab invariant. -/
theorem hideWindow_grabInv (s : State) : GrabInv (hideWindow s) := by
  intro h
  rw [(hideWindow_fields s).1] at h
  cases h

/-- The function `engagePopup` keeps the grab invariant. -/
theorem engagePopup_grabInv (env : Env) (giveFocus : Bool) (s : State) (h : GrabInv s) :
    GrabInv (engagePopup env giveFocus s) := by
  unfold GrabInv at *
  cases hv : s.visible <;> cases hp : s.pinChecked <;> cases hi : s.mouseIntercepted <;>
    cases giveFocus <;>
    simp_all [engagePopup, initiateTranslation, interceptMouse, showWidget, moveWidget,
      State.emit]

/-- The function `uninterceptMouse` only clears the interception flag. -/
theorem uninterceptMouse_fields (s : State) :
    (uninterceptMouse s).mouseIntercepted = false ∧
      (uninterceptMouse s).visible = s.visible ∧
      (uninterceptMouse s).pinChecked = s.pinChecked ∧
      (uninterceptMouse s).hideTimer = s.hideTimer ∧
      (uninterceptMouse s).mouseEnteredOnce = s.mouseEnteredOnce ∧
      (uninterceptMouse s).inputWord = s.inputWord := by
  cases hi : s.mouseIntercepted <;> simp [uninterceptMouse, State.emit, hi]

/-- The function `eventFilter` keeps the grab invariant. -/
theorem eventFilter_grabInv (watchedIsThis : Bool) (event : QEvent) (s : State)
    (h : GrabInv s) : GrabInv (eventFilter watchedIsThis event s) := by
  unfold eventFilter
  split
  · cases event with
    | Other => exact h
    | MouseMove globalPos =>
      simp only
      split_ifs
      · intro hi
        rw [(uninterceptMouse_fields _).1] at hi
        cases hi
      all_goals first
        | exact h
        | exact hideWindow_grabInv s
  · exact h

/-- The function `pinButtonClicked`, run on the new check state, keeps the
grab invariant. -/
theorem pinButtonSignal_grabInv (checked : Bool) (s : State) (h : GrabInv s) :
    GrabInv (pinButtonSignal checked s) := by
  unfold GrabInv at *
  cases checked <;> cases hi : s.mouseIntercepted <;>
    simp_all [pinButtonSignal, pinButtonClicked, uninterceptMouse, setWindowFlags, showWidget,
      State.emit]

/-- The function `handleInputWord` keeps the grab invariant. -/
theorem handleInputWord_grabInv (trim : QString → QString) (cfg : Preferences) (env : Env)
    (str : QString) (s : State) (h : GrabInv s) :
    GrabInv (handleInputWord trim cfg env str s) := by
  unfold handleInputWord
  simp only
  split
  · split
    · exact h.congr rfl rfl rfl
    · exact h.congr rfl rfl rfl
  · split
    · split
      · exact h.congr rfl rfl rfl
      · exact h.congr rfl rfl rfl
    · exact engagePopup_grabInv _ _ _ (h.congr rfl rfl rfl)

/-- The function `translateWordFromClipboard` keeps the grab invariant. -/
theorem translateWordFromClipboard_grabInv (trim : QString → QString) (env : Env)
    (m : ClipboardMode) (s : State) (h : GrabInv s) :
    GrabInv (translateWordFromClipboard trim env m s) := by
  unfold translateWordFromClipboard
  simp only
  split
  · exact h.congr rfl rfl rfl
  · exact engagePopup_grabInv _ _ _ (h.congr rfl rfl rfl)

/-- The function `altModePoll` keeps the grab invariant. -/
theorem altModePoll_grabInv (cfg : Preferences) (env : Env) (s : State) (h : GrabInv s) :
    GrabInv (altModePoll cfg env s) := by
  unfold altModePoll
  split
  · exact h.congr rfl rfl rfl
  · split
    · exact engagePopup_grabInv _ _ _ (h.congr rfl rfl rfl)
    · exact h

/-- The function `initiateTranslation` does not touch the lifecycle flags. -/
theorem initiateTranslation_fields (s : State) :
    (initiateTranslation s).mouseIntercepted = s.mouseIntercepted ∧
      (initiateTranslation s).visible = s.visible ∧
      (initiateTranslation s).pinChecked = s.pinChecked ∧
      (initiateTranslation s).mouseEnteredOnce = s.mouseEnteredOnce ∧
      (initiateTranslation s).hideTimer = s.hideTimer ∧
      (initiateTranslation s).pos = s.pos := by
  simp [initiateTranslation, State.emit]

/-- A `menu` run does not touch the lifecycle flags. -/
theorem on_wordListButton_clicked_fields (results : List (QString × Bool))
    (choice : Option Nat) (s t : State)
    (h : on_wordListButton_clicked results choice s = some t) :
    t.mouseIntercepted = s.mouseIntercepted ∧ t.visible = s.visible ∧
      t.pinChecked = s.pinChecked ∧ t.mouseEnteredOnce = s.mouseEnteredOnce ∧
      t.hideTimer = s.hideTimer := by
  unfold on_wordListButton_clicked at h
  split at h
  · cases h; simp
  · split at h
    · cases h; simp
    · split at h
      · cases h
      · simp only at h
        split at h <;> cases h <;> simp [State.emit]

/-- Every event keeps the grab invariant. -/
theorem step_grabInv (trim : QString → QString) (cfg : Preferences) (env : Env) (e : Event)
    (s : State) (h : GrabInv s) : GrabInv (step trim cfg env e s) := by
  cases e with
  | mouseHovered str => exact handleInputWord_grabInv trim cfg env str s h
  | clipboardChanged m =>
    simp only [step, clipboardChanged]
    split
    · exact h
    · exact handleInputWord_grabInv trim cfg env _ s h
  | translateWordFromClipboard m => exact translateWordFromClipboard_grabInv trim env m s h
  | engagePopup giveFocus => exact engagePopup_grabInv env giveFocus s h
  | eventFilter watchedIsThis event => exact eventFilter_grabInv watchedIsThis event s h
  | mousePressEvent globalPos =>
    simp only [step, mousePressEvent]
    split
    · exact hideWindow_grabInv s
    · exact h.congr rfl rfl rfl
  | mouseMoveEvent buttons globalPos =>
    simp only [step, mouseMoveEvent]
    split
    · exact h.congr rfl rfl rfl
    · exact h
  | mouseReleaseEvent => exact h.congr rfl rfl rfl
  | leaveEvent =>
    simp only [step, leaveEvent]
    split
    · exact h.congr rfl rfl rfl
    · exact h
  | enterEvent =>
    simp only [step, enterEvent]
    split
    · exact h.congr rfl rfl rfl
    · exact h
  | pinButtonClicked checked => exact pinButtonSignal_grabInv checked s h
  | hideTimerTimeout =>
    simp only [step, hideTimerExpired]
    split
    · split
      · exact hideWindow_grabInv _
      · exact h.congr rfl rfl rfl
    · exact h
  | altModeExpirationTimeout =>
    simp only [step, altModeExpired]
    split
    · exact h.congr rfl rfl rfl
    · exact h
  | altModePollingTimeout =>
    simp only [step]
    split
    · exact altModePoll_grabInv cfg env s h
    · exact h
  | escapePressed =>
    simp only [step, escapePressed]
    split
    · exact hideWindow_grabInv s
    · exact h
  | prefixMatchFinished errorString results =>
    simp only [step, prefixMatchFinished]
    split
    · split <;> exact h.congr rfl rfl rfl
    · exact h
  | wordListButtonClicked results choice =>
    simp only [step]
    cases hr : on_wordListButton_clicked results choice s with
    | none => exact h
    | some t =>
      have hf := on_wordListButton_clicked_fields results choice s t hr
      exact h.congr hf.1 hf.2.1 hf.2.2.1
  | pronounceButtonClicked => exact h.congr rfl rfl rfl
  | pageLoaded =>
    simp only [step, pageLoaded]
    split <;> exact h.congr rfl rfl rfl
  | currentGroupChanged group =>
    simp only [step, currentGroupChanged]
    split
    · exact h.congr (initiateTranslation_fields _).1 (initiateTranslation_fields _).2.1
        (initiateTranslation_fields _).2.2.1
    · exact h.congr rfl rfl rfl
  | enableScanning =>
    simp only [step, enableScanning]
    split
    · exact h.congr rfl rfl rfl
    · exact h
  | disableScanning =>
    simp only [step, disableScanning]
    split
    · exact h.congr rfl rfl rfl
    · exact h

/-- Every run keeps the grab invariant. -/
theorem run_grabInv (trim : QString → QString) (trace : List (Preferences × Env × Event))
    (s : State) (h : GrabInv s) : GrabInv (run trim s trace) := by
  induction trace generalizing s with
  | nil => exact h
  | cons a rest ih =>
    obtain ⟨cfg, env, e⟩ := a
    exact ih _ (step_grabInv trim cfg env e s h)

/-- The waiting invariant only looks at four fields. -/
theorem WaitingInv.congr_four {s t : State} (h : WaitingInv s) (hv : t.visible = s.visible)
    (hp : t.pinChecked = s.pinChecked) (he : t.mouseEnteredOnce = s.mouseEnteredOnce)
    (hi : t.mouseIntercepted = s.mouseIntercepted) : WaitingInv t := by
  unfold WaitingInv at *
  rw [hv, hp, he, hi]
  exact h

/-- A hidden popup satisfies the waiting invariant. -/
theorem WaitingInv.of_hidden {t : State} (hv : t.visible = false) : WaitingInv t := by
  intro h
  rw [hv] at h
  cases h

/-- A popup the pointer has entered satisfies the waiting invariant. -/
theorem WaitingInv.of_entered {t : State} (he : t.mouseEnteredOnce = true) : WaitingInv t := by
  intro _ _ h
  rw [he] at h
  cases h

/-- What `engagePopup` does to the lifecycle flags: the pin state is kept; a
visible popup keeps its visibility, `mouseEnteredOnce` and interception; a
hidden, unpinned popup ends up intercepting. -/
theorem engagePopup_lifecycle (env : Env) (giveFocus : Bool) (s : State) :
    (engagePopup env giveFocus s).pinChecked = s.pinChecked ∧
      (s.visible = true →
        (engagePopup env giveFocus s).visible = true ∧
          (engagePopup env giveFocus s).mouseEnteredOnce = s.mouseEnteredOnce ∧
          (engagePopup env giveFocus s).mouseIntercepted = s.mouseIntercepted) ∧
      (s.visible = false → s.pinChecked = false →
        (engagePopup env giveFocus s).mouseIntercepted = true) := by
  cases hv : s.visible <;> cases hp : s.pinChecked <;> cases hi : s.mouseIntercepted <;>
    cases giveFocus <;>
    simp [engagePopup, initiateTranslation, interceptMouse, showWidget, moveWidget,
      State.emit, hv, hp, hi]

/-- The function `engagePopup` keeps the waiting invariant. -/
theorem engagePopup_waitingInv (env : Env) (giveFocus : Bool) (s : State)
    (h : WaitingInv s) : WaitingInv (engagePopup env giveFocus s) := by
  have hl := engagePopup_lifecycle env giveFocus s
  cases hv : s.visible
  · cases hp : s.pinChecked
    · exact fun _ _ _ => hl.2.2 hv hp
    · intro _ h2 _
      rw [hl.1, hp] at h2
      cases h2
  · intro _ h2 h3
    rw [hl.1] at h2
    rw [(hl.2.1 hv).2.1] at h3
    rw [(hl.2.1 hv).2.2]
    exact h hv h2 h3

/-- The function `eventFilter` keeps the waiting invariant. -/
theorem eventFilter_waitingInv (watchedIsThis : Bool) (event : QEvent) (s : State)
    (h : WaitingInv s) : WaitingInv (eventFilter watchedIsThis event s) := by
  unfold eventFilter
  split
  · cases event with
    | Other => exact h
    | MouseMove globalPos =>
      simp only
      split_ifs
      · exact WaitingInv.of_entered ((uninterceptMouse_fields _).2.2.2.2.1.trans rfl)
      all_goals first
        | exact WaitingInv.of_hidden (hideWindow_fields _).2.2.1
        | exact h.congr_four rfl rfl rfl rfl
  · exact h

/-- The pin button's signal keeps the waiting invariant: the popup ends up
pinned, or with `mouseEnteredOnce` set. -/
theorem pinButtonSignal_waitingInv (checked : Bool) (s : State) :
    WaitingInv (pinButtonSignal checked s) := by
  unfold WaitingInv
  cases checked <;> cases hi : s.mouseIntercepted <;>
    simp [pinButtonSignal, pinButtonClicked, uninterceptMouse, setWindowFlags, showWidget,
      State.emit, hi]

/-- The function `handleInputWord` keeps the waiting invariant. -/
theorem handleInputWord_waitingInv (trim : QString → QString) (cfg : Preferences) (env : Env)
    (str : QString) (s : State) (h : WaitingInv s) :
    WaitingInv (handleInputWord trim cfg env str s) := by
  unfold handleInputWord
  simp only
  split_ifs
  · exact h
  · exact h
  · exact h
  · exact h
  · exact engagePopup_waitingInv _ _ _ (h.congr_four rfl rfl rfl rfl)

/-- Every event keeps the waiting invariant. -/
theorem step_waitingInv (trim : QString → QString) (cfg : Preferences) (env : Env)
    (e : Event) (s : State) (h : WaitingInv s) : WaitingInv (step trim cfg env e s) := by
  cases e with
  | mouseHovered str => exact handleInputWord_waitingInv trim cfg env str s h
  | clipboardChanged m =>
    simp only [step, clipboardChanged]
    split_ifs
    · exact h
    · exact handleInputWord_waitingInv trim cfg env _ s h
  | translateWordFromClipboard m =>
    simp only [step, translateWordFromClipboard]
    split_ifs
    · exact h
    · exact engagePopup_waitingInv _ _ _ (h.congr_four rfl rfl rfl rfl)
  | engagePopup giveFocus => exact engagePopup_waitingInv env giveFocus s h
  | eventFilter watchedIsThis event => exact eventFilter_waitingInv watchedIsThis event s h
  | mousePressEvent globalPos =>
    simp only [step, mousePressEvent]
    split_ifs
    · exact WaitingInv.of_hidden (hideWindow_fields _).2.2.1
    · exact h
  | mouseMoveEvent buttons globalPos =>
    simp only [step, mouseMoveEvent]
    split_ifs <;> exact h
  | mouseReleaseEvent => exact h
  | leaveEvent =>
    simp only [step, leaveEvent]
    split_ifs <;> exact h.congr_four rfl rfl rfl rfl
  | enterEvent =>
    simp only [step, enterEvent]
    split_ifs <;> exact h
  | pinButtonClicked checked => exact pinButtonSignal_waitingInv checked s
  | hideTimerTimeout =>
    simp only [step, hideTimerExpired]
    split_ifs
    · exact WaitingInv.of_hidden (hideWindow_fields _).2.2.1
    · exact h
    · exact h
  | altModeExpirationTimeout =>
    simp only [step, altModeExpired]
    split_ifs <;> exact h
  | altModePollingTimeout =>
    simp only [step, altModePoll]
    split_ifs
    · exact h
    · exact engagePopup_waitingInv _ _ _ (h.congr_four rfl rfl rfl rfl)
    · exact h
    · exact h
  | escapePressed =>
    simp only [step, escapePressed]
    split_ifs
    · exact WaitingInv.of_hidden (hideWindow_fields _).2.2.1
    · exact h
  | prefixMatchFinished errorString results =>
    simp only [step, prefixMatchFinished]
    split_ifs <;> exact h
  | wordListButtonClicked results choice =>
    simp only [step]
    cases hr : on_wordListButton_clicked results choice s with
    | none => exact h
    | some t =>
      have hf := on_wordListButton_clicked_fields results choice s t hr
      exact h.congr_four hf.2.1 hf.2.2.1 hf.2.2.2.1 hf.1
  | pronounceButtonClicked => exact h
  | pageLoaded =>
    simp only [step, pageLoaded]
    split_ifs <;> exact h
  | currentGroupChanged group =>
    simp only [step, currentGroupChanged]
    split_ifs
    · exact h.congr_four (initiateTranslation_fields _).2.1 (initiateTranslation_fields _).2.2.1
        (initiateTranslation_fields _).2.2.2.1 (initiateTranslation_fields _).1
    · exact h.congr_four rfl rfl rfl rfl
  | enableScanning =>
    simp only [step, enableScanning]
    split_ifs <;> exact h
  | disableScanning =>
    simp only [step, disableScanning]
    split_ifs <;> exact h

/-- Every run keeps the waiting invariant. -/
theorem run_waitingInv (trim : QString → QString) (trace : List (Preferences × Env × Event))
    (s : State) (h : WaitingInv s) : WaitingInv (run trim s trace) := by
  induction trace generalizing s with
  | nil => exact h
  | cons a rest ih =>
    obtain ⟨cfg, env, e⟩ := a
    exact ih _ (step_waitingInv trim cfg env e s h)

/-- C2 (interception invariant), as amended: in every state reachable from
the initial state by any sequence of the popup's events, interception implies
that the popup is visible and not pinned; and as long as the pointer has not
entered the popup (`mouseEnteredOnce` is false), pointer motion is intercepted
if and only if the popup is visible and not pinned. -/
theorem C2_interception_iff_transient_until_entered (trim : QString → QString) (size : QSize)
    (group : Nat) (trace : List (Preferences × Env × Event)) :
    ((run trim (State.initial size group) trace).mouseIntercepted = true →
        (run trim (State.initial size group) trace).visible = true ∧
          (run trim (State.initial size group) trace).pinChecked = false)
      ∧ ((run trim (State.initial size group) trace).mouseEnteredOnce = false →
          ((run trim (State.initial size group) trace).mouseIntercepted = true ↔
            ((run trim (State.initial size group) trace).visible = true ∧
              (run trim (State.initial size group) trace).pinChecked = false))) := by
  have hg := run_grabInv trim trace (State.initial size group) (fun h => by cases h)
  have hw := run_waitingInv trim trace (State.initial size group)
    (WaitingInv.of_hidden rfl)
  exact ⟨hg, fun he => ⟨hg, fun hvp => hw hvp.1 hvp.2 he⟩⟩

/-- Witness for C2: right after the first hovered word the pointer has not
entered the popup, which is visible, unpinned and intercepting. -/
theorem C2_interception_iff_transient_until_entered_witness :
    ((run id sampleState [(sampleCfg, sampleEnv, Event.mouseHovered sampleCat)]).mouseIntercepted
        = true ↔
      ((run id sampleState [(sampleCfg, sampleEnv, Event.mouseHovered sampleCat)]).visible
          = true ∧
        (run id sampleState
          [(sampleCfg, sampleEnv, Event.mouseHovered sampleCat)]).pinChecked = false)) ∧
      (run id sampleState [(sampleCfg, sampleEnv, Event.mouseHovered sampleCat)]).mouseIntercepted
        = true :=
  ⟨(C2_interception_iff_transient_until_entered id ⟨300, 200⟩ 0
    [(sampleCfg, sampleEnv, Event.mouseHovered sampleCat)]).2 (by decide), by decide⟩

/-- C2 as stated fails: after a hovered word and one pointer motion inside the
popup, the popup is visible and unpinned but nothing is intercepted
(`mouseEnteredOnce` is true then). -/
theorem C2_interception_iff_transient_counterexample :
    ¬ ((run id sampleState sampleEnterTrace).mouseIntercepted = true ↔
        ((run id sampleState sampleEnterTrace).visible = true ∧
          (run id sampleState sampleEnterTrace).pinChecked = false)) := by
  decide

/-! ## Proximity -/

/-- Membership in a rectangle that is not inverted. -/
theorem QRect.contains_iff (r : QRect) (p : QPoint) (hx : r.x1 - 1 ≤ r.x2)
    (hy : r.y1 - 1 ≤ r.y2) :
    r.contains p = true ↔ r.x1 ≤ p.x ∧ p.x ≤ r.x2 ∧ r.y1 ≤ p.y ∧ p.y ≤ r.y2 := by
  have h1 : ¬ r.x2 < r.x1 - 1 := by omega
  have h2 : ¬ r.y2 < r.y1 - 1 := by omega
  simp only [QRect.contains, if_neg h1, if_neg h2, Bool.and_eq_true, Bool.not_eq_true',
    Bool.or_eq_false_iff, decide_eq_false_iff_not]
  omega

/-- The client rectangle of a popup of non-negative size lies inside its
frame rectangle. -/
theorem geometry_subset_frameGeometry (s : State) (p : QPoint) (hw : 0 ≤ s.size.width)
    (hh : 0 ≤ s.size.height) (h : s.geometry.contains p = true) :
    s.frameGeometry.contains p = true := by
  rw [QRect.contains_iff _ _ (by simp only [State.geometry, QRect.ofXYWH]; omega)
    (by simp only [State.geometry, QRect.ofXYWH]; omega)] at h
  rw [QRect.contains_iff _ _ (by simp only [State.frameGeometry, QRect.ofXYWH]; omega)
    (by simp only [State.frameGeometry, QRect.ofXYWH]; omega)]
  simp only [State.geometry, State.frameGeometry, QRect.ofXYWH] at *
  omega

/-- Widening the frame rectangle of a popup of non-negative size by `d >= 0`
on all four sides keeps every point it had. -/
theorem frameGeometry_adjusted_mono (s : State) (p : QPoint) (d e : Int) (hd : 0 ≤ d)
    (he : d ≤ e) (hw : 0 ≤ s.size.width) (hh : 0 ≤ s.size.height)
    (h : (s.frameGeometry.adjusted (-d) (-d) d d).contains p = true) :
    (s.frameGeometry.adjusted (-e) (-e) e e).contains p = true := by
  rw [QRect.contains_iff _ _
    (by simp only [State.frameGeometry, QRect.ofXYWH, QRect.adjusted]; omega)
    (by simp only [State.frameGeometry, QRect.ofXYWH, QRect.adjusted]; omega)] at h
  rw [QRect.contains_iff _ _
    (by simp only [State.frameGeometry, QRect.ofXYWH, QRect.adjusted]; omega)
    (by simp only [State.frameGeometry, QRect.ofXYWH, QRect.adjusted]; omega)]
  simp only [State.frameGeometry, QRect.ofXYWH, QRect.adjusted] at *
  omega

/-- Widening a rectangle by nothing gives the rectangle back. -/
theorem QRect.adjusted_zero (r : QRect) : r.adjusted 0 0 0 0 = r := by
  cases r
  simp [QRect.adjusted]

/-- What `eventFilter` does with a pointer motion outside the popup's own
bounds while intercepting. -/
theorem eventFilter_outside (watchedIsThis : Bool) (p : QPoint) (s : State)
    (hi : s.mouseIntercepted = true) (hg : s.geometry.contains p = false) :
    eventFilter watchedIsThis (QEvent.MouseMove p) s =
      if watchedIsThis = true ∧
          (s.frameGeometry.adjusted (-(if s.mouseEnteredOnce then 0 else 60))
            (-(if s.mouseEnteredOnce then 0 else 60)) (if s.mouseEnteredOnce then 0 else 60)
            (if s.mouseEnteredOnce then 0 else 60)).contains p = false then
        if s.mouseEnteredOnce then startHideTimer s else hideWindow s
      else s := by
  cases he : s.mouseEnteredOnce <;> cases watchedIsThis <;>
    simp [eventFilter, hi, hg, he]

/-- C3 (proximity boundary), as amended: for an intercepted pointer motion
whose target is the popup itself and whose position is exactly 1 unit outside
the popup's frame, `eventFilter` starts the hide countdown and changes nothing
else (the popup stays visible) when `mouseEnteredOnce` is true, and changes
nothing at all when `mouseEnteredOnce` is false; with `mouseEnteredOnce` false
the popup is hidden at once by motions outside the frame widened by 60. -/
theorem C3_boundary_motion (s : State) (p : QPoint) (hi : s.mouseIntercepted = true)
    (hw : 0 ≤ s.size.width) (hh : 0 ≤ s.size.height)
    (hout : s.frameGeometry.contains p = false)
    (hnear : (s.frameGeometry.adjusted (-1) (-1) 1 1).contains p = true) :
    (s.mouseEnteredOnce = true →
        eventFilter true (QEvent.MouseMove p) s = startHideTimer s ∧
          (eventFilter true (QEvent.MouseMove p) s).visible = s.visible)
      ∧ (s.mouseEnteredOnce = false → eventFilter true (QEvent.MouseMove p) s = s)
      ∧ (∀ q : QPoint, s.mouseEnteredOnce = false →
          (s.frameGeometry.adjusted (-60) (-60) 60 60).contains q = false →
          eventFilter true (QEvent.MouseMove q) s = hideWindow s ∧
            (eventFilter true (QEvent.MouseMove q) s).visible = false) := by
  have hg : s.geometry.contains p = false := by
    cases hc : s.geometry.contains p
    · rfl
    · rw [geometry_subset_frameGeometry s p hw hh hc] at hout
      cases hout
  refine ⟨?_, ?_, ?_⟩
  · intro he
    have h : eventFilter true (QEvent.MouseMove p) s = startHideTimer s := by
      rw [eventFilter_outside true p s hi hg]
      simp [he, QRect.adjusted_zero, hout]
    rw [h]
    exact ⟨rfl, rfl⟩
  · intro he
    have h := eventFilter_outside true p s hi hg
    have h60 := frameGeometry_adjusted_mono s p 1 60 (by omega) (by omega) hw hh hnear
    simpa [he, h60] using h
  · intro q he hq
    have hgq : s.geometry.contains q = false := by
      cases hc : s.geometry.contains q
      · rfl
      · have h0 := geometry_subset_frameGeometry s q hw hh hc
        have h1 : (s.frameGeometry.adjusted (-0) (-0) 0 0).contains q = true := by
          simpa [QRect.adjusted_zero] using h0
        rw [frameGeometry_adjusted_mono s q 0 60 (by omega) (by omega) hw hh h1] at hq
        cases hq
    have h2 : eventFilter true (QEvent.MouseMove q) s = hideWindow s := by
      rw [eventFilter_outside true q s hi hgq]
      simp [he, hq]
    rw [h2]
    exact ⟨rfl, (hideWindow_fields s).2.2.1⟩

/-- Witness for C3: with `mouseEnteredOnce` set, a motion to `(1595, 520)`, one
unit left of the frame of the popup at `(1596, 515)`, starts the countdown. -/
theorem C3_boundary_motion_witness :
    eventFilter true (QEvent.MouseMove ⟨1595, 520⟩) sampleEntered =
        startHideTimer sampleEntered ∧
      (eventFilter true (QEvent.MouseMove ⟨1595, 520⟩) sampleEntered).visible
        = sampleEntered.visible :=
  (C3_boundary_motion sampleEntered ⟨1595, 520⟩ (by decide) (by decide) (by decide)
    (by decide) (by decide)).1 (by decide)

/-- C3 as stated fails: with `mouseEnteredOnce` false, an intercepted motion
aimed at the popup itself, exactly 1 unit outside its frame, does not hide the
popup: it changes nothing. -/
theorem C3_boundary_hide_counterexample :
    sampleShown.mouseIntercepted = true ∧ sampleShown.mouseEnteredOnce = false ∧
      sampleShown.visible = true ∧
      sampleShown.frameGeometry.contains ⟨1595, 520⟩ = false ∧
      (sampleShown.frameGeometry.adjusted (-1) (-1) 1 1).contains ⟨1595, 520⟩ = true ∧
      (eventFilter true (QEvent.MouseMove ⟨1595, 520⟩) sampleShown).visible = true ∧
      eventFilter true (QEvent.MouseMove ⟨1595, 520⟩) sampleShown ≠ hideWindow sampleShown := by
  decide

/-! ## Input arbitration and alt mode -/

/-- The collaborator calls of `engagePopup`: window-system calls, then one
lookup of the committed word. -/
theorem engagePopup_effects (env : Env) (giveFocus : Bool) (s : State) :
    (engagePopup env giveFocus s).effects =
      s.effects ++ engageWindowCalls env giveFocus s ++ lookupCalls s := by
  cases hv : s.visible <;> cases hp : s.pinChecked
  · rw [engagePopup_effects_of_hidden_unpinned env giveFocus s hv hp]
    cases giveFocus <;> cases hi : s.mouseIntercepted <;>
      simp [engageWindowCalls, lookupCalls, hv, hp, hi]
  all_goals
    cases giveFocus <;> cases hi : s.mouseIntercepted <;>
      simp [engagePopup, initiateTranslation, interceptMouse, showWidget,
        State.emit, hv, hp, hi, lookupCalls, engageWindowCalls]

/-- No window-system call of `engagePopup` is a lookup call. -/
theorem engageWindowCalls_not_lookup (env : Env) (giveFocus : Bool) (s : State) :
    ∀ e ∈ engageWindowCalls env giveFocus s, e.isLookup = false := by
  unfold engageWindowCalls
  cases s.visible <;> cases s.pinChecked <;> cases giveFocus <;> cases s.mouseIntercepted <;>
    simp [Effect.isLookup]

/-- The function `engagePopup` leaves both words, the alt-mode timers, the
pin state and the selected group alone, shows the popup and sets the title
label to the elided committed word. -/
theorem engagePopup_frame (env : Env) (giveFocus : Bool) (s : State) :
    (engagePopup env giveFocus s).inputWord = s.inputWord ∧
      (engagePopup env giveFocus s).pendingInputWord = s.pendingInputWord ∧
      (engagePopup env giveFocus s).altModePollingTimer = s.altModePollingTimer ∧
      (engagePopup env giveFocus s).altModeExpirationTimer = s.altModeExpirationTimer ∧
      (engagePopup env giveFocus s).pinChecked = s.pinChecked ∧
      (engagePopup env giveFocus s).currentGroup = s.currentGroup ∧
      (engagePopup env giveFocus s).visible = true ∧
      (engagePopup env giveFocus s).wordText = elideInputWord s := by
  cases hv : s.visible <;> cases hp : s.pinChecked <;> cases hi : s.mouseIntercepted <;>
    cases giveFocus <;>
    simp [engagePopup, initiateTranslation, interceptMouse, showWidget, moveWidget,
      State.emit, hv, hp, hi, elideInputWord]

/-- What `handleInputWord` does with an input whose normalized form is not
empty. -/
theorem handleInputWord_of_nonempty (trim : QString → QString) (cfg : Preferences) (env : Env)
    (str : QString) (s : State) (hw : trim str ≠ []) :
    handleInputWord trim cfg env str s =
      if cfg.enableScanPopupModifiers = true ∧
          env.checkModifiersPressed cfg.scanPopupModifiers = false then
        if cfg.scanPopupAltMode = true then
          { s with pendingInputWord := trim str, altModePollingTimer := true,
                   altModeExpirationTimer := true }
        else { s with pendingInputWord := trim str }
      else engagePopup env false { s with pendingInputWord := trim str, inputWord := trim str } := by
  have hl : ¬ (trim str).length = 0 := by
    intro h
    exact hw (List.length_eq_zero.mp h)
  cases hg : cfg.enableScanPopupModifiers <;>
    cases hm : env.checkModifiersPressed cfg.scanPopupModifiers <;>
    cases ha : cfg.scanPopupAltMode <;>
    simp [handleInputWord, hl, hg, hm, ha]

/-- What `altModePoll` does when a word is pending. -/
theorem altModePoll_of_pending (cfg : Preferences) (env : Env) (s : State)
    (hw : s.pendingInputWord ≠ []) :
    altModePoll cfg env s =
      if env.checkModifiersPressed cfg.scanPopupModifiers = true then
        engagePopup env false
          { s with altModePollingTimer := false, altModeExpirationTimer := false,
                   inputWord := s.pendingInputWord }
      else s := by
  have hl : ¬ s.pendingInputWord.length = 0 := by
    intro h
    exact hw (List.length_eq_zero.mp h)
  cases hm : env.checkModifiersPressed cfg.scanPopupModifiers <;>
    simp [altModePoll, hl, hm]

/-- C4 (alt-mode deferred commit).  With modifier gating and alt mode enabled
and an input whose normalized form `w` is not empty: when the required
modifiers are not held, `handleInputWord` starts both alt-mode timers, stores
`w` as the pending word and changes nothing else (the committed word is kept,
the popup is not engaged, no collaborator is called); when the next event is a
poll tick at which the modifiers are held, the tick commits `w`, stops both
timers and engages the popup (one lookup of `w`).  A poll tick with a pending
word and the modifiers not held changes nothing. -/
theorem C4_alt_mode_deferred_commit (trim : QString → QString) (cfg : Preferences) (env : Env)
    (str : QString) (s : State) (hg : cfg.enableScanPopupModifiers = true)
    (ha : cfg.scanPopupAltMode = true) (hw : trim str ≠ [])
    (hm : env.checkModifiersPressed cfg.scanPopupModifiers = false) :
    handleInputWord trim cfg env str s =
        { s with pendingInputWord := trim str, altModePollingTimer := true,
                 altModeExpirationTimer := true }
      ∧ (handleInputWord trim cfg env str s).inputWord = s.inputWord
      ∧ (handleInputWord trim cfg env str s).visible = s.visible
      ∧ (handleInputWord trim cfg env str s).effects = s.effects
      ∧ (∀ env2 : Env, env2.checkModifiersPressed cfg.scanPopupModifiers = true →
          step trim cfg env2 Event.altModePollingTimeout (handleInputWord trim cfg env str s) =
              engagePopup env2 false
                { s with pendingInputWord := trim str, altModePollingTimer := false,
                         altModeExpirationTimer := false, inputWord := trim str }
            ∧ (step trim cfg env2 Event.altModePollingTimeout
                (handleInputWord trim cfg env str s)).inputWord = trim str
            ∧ (step trim cfg env2 Event.altModePollingTimeout
                (handleInputWord trim cfg env str s)).altModePollingTimer = false
            ∧ (step trim cfg env2 Event.altModePollingTimeout
                (handleInputWord trim cfg env str s)).altModeExpirationTimer = false
            ∧ ∃ windowCalls, (∀ e ∈ windowCalls, e.isLookup = false) ∧
                (step trim cfg env2 Event.altModePollingTimeout
                  (handleInputWord trim cfg env str s)).effects =
                  s.effects ++ windowCalls ++
                    [Effect.showDefinition (trim str) s.currentGroup, Effect.prefixMatch (trim str),
                     Effect.historyAddItem s.currentGroup (trimmed (trim str)),
                     Effect.historySave])
      ∧ (∀ (env2 : Env) (t : State), t.pendingInputWord ≠ [] →
          env2.checkModifiersPressed cfg.scanPopupModifiers = false →
          altModePoll cfg env2 t = t ∧
            step trim cfg env2 Event.altModePollingTimeout t = t) := by
  have h1 : handleInputWord trim cfg env str s =
      { s with pendingInputWord := trim str, altModePollingTimer := true,
               altModeExpirationTimer := true } := by
    rw [handleInputWord_of_nonempty trim cfg env str s hw]
    simp [hg, ha, hm]
  refine ⟨h1, by rw [h1], by rw [h1], by rw [h1], ?_, ?_⟩
  · intro env2 hm2
    have h2 : step trim cfg env2 Event.altModePollingTimeout
        (handleInputWord trim cfg env str s) =
        engagePopup env2 false
          { s with pendingInputWord := trim str, altModePollingTimer := false,
                   altModeExpirationTimer := false, inputWord := trim str } := by
      rw [h1]
      simp only [step, if_true]
      rw [altModePoll_of_pending _ _ _ hw]
      simp [hm2]
    rw [h2]
    have hf := engagePopup_frame env2 false
      { s with pendingInputWord := trim str, altModePollingTimer := false,
               altModeExpirationTimer := false, inputWord := trim str }
    refine ⟨rfl, hf.1, hf.2.2.1, hf.2.2.2.1, _,
      engageWindowCalls_not_lookup env2 false
        { s with pendingInputWord := trim str, altModePollingTimer := false,
                 altModeExpirationTimer := false, inputWord := trim str }, ?_⟩
    rw [engagePopup_effects]
    rfl
  · intro env2 t ht hm2
    have h3 : altModePoll cfg env2 t = t := by
      rw [altModePoll_of_pending _ _ _ ht]
      simp [hm2]
    refine ⟨h3, ?_⟩
    simp only [step, h3, ite_self]

/-- Witness for C4: with Ctrl required (mask 1) and not held, hovering "cat"
over the hidden sample popup defers the lookup. -/
theorem C4_alt_mode_deferred_commit_witness :
    handleInputWord id sampleAltCfg sampleEnv sampleCat sampleState =
      { sampleState with pendingInputWord := sampleCat, altModePollingTimer := true,
                         altModeExpirationTimer := true } :=
  (C4_alt_mode_deferred_commit id sampleAltCfg sampleEnv sampleCat sampleState
    (by decide) (by decide) (by decide) (by decide)).1

/-- C5 (gated drop), as amended: when modifier gating is enabled, the required
modifiers are not held, alt mode is disabled and the normalized input is not
empty, `handleInputWord` overwrites the pending candidate word with the
normalized input and changes nothing else: committed word, both alt-mode
timers, hide countdown, visibility, pin state, proximity flags and the record
of collaborator calls (so no lookup) are as before. -/
theorem C5_gated_drop_overwrites_pending_only (trim : QString → QString) (cfg : Preferences)
    (env : Env) (str : QString) (s : State) (hg : cfg.enableScanPopupModifiers = true)
    (ha : cfg.scanPopupAltMode = false) (hw : trim str ≠ [])
    (hm : env.checkModifiersPressed cfg.scanPopupModifiers = false) :
    handleInputWord trim cfg env str s = { s with pendingInputWord := trim str } := by
  rw [handleInputWord_of_nonempty trim cfg env str s hw]
  simp [hg, ha, hm]

/-- Witness for C5: hovering "cat" with the modifier not held and no alt mode
only records "cat" as the pending word. -/
theorem C5_gated_drop_overwrites_pending_only_witness :
    handleInputWord id sampleGatedCfg sampleEnv sampleCat sampleState =
      { sampleState with pendingInputWord := sampleCat } :=
  C5_gated_drop_overwrites_pending_only id sampleGatedCfg sampleEnv sampleCat sampleState
    (by decide) (by decide) (by decide) (by decide)

/-- C5 as stated fails: gating enabled, modifier not held, alt mode disabled,
normalized input "cat" not empty, yet the pending candidate word changes (it
was empty, it becomes "cat"), so the state is not left unchanged. -/
theorem C5_gated_drop_unchanged_counterexample :
    sampleGatedCfg.enableScanPopupModifiers = true ∧
      sampleEnv.checkModifiersPressed sampleGatedCfg.scanPopupModifiers = false ∧
      sampleGatedCfg.scanPopupAltMode = false ∧
      id sampleCat ≠ ([] : QString) ∧
      sampleState.pendingInputWord = [] ∧
      (handleInputWord id sampleGatedCfg sampleEnv sampleCat sampleState).pendingInputWord
        = sampleCat ∧
      handleInputWord id sampleGatedCfg sampleEnv sampleCat sampleState ≠ sampleState := by
  decide

/-- The function `engagePopup` reads the environment only for the cursor
position and the screen rectangle. -/
theorem engagePopup_env_congr (env env2 : Env) (giveFocus : Bool) (s : State)
    (hc : env2.cursorPos = env.cursorPos) (hs : env2.screenGeometry = env.screenGeometry) :
    engagePopup env2 giveFocus s = engagePopup env giveFocus s := by
  simp only [engagePopup, hc, hs]

/-- C6 (ungated commit).  With modifier gating disabled and an input whose
normalized form `w` is not empty, `handleInputWord` sets both the pending and
the committed word to `w` and engages the popup, which looks `w` up once; the
outcome is the same whatever modifiers are held and whatever the alt-mode
setting. -/
theorem C6_ungated_commit (trim : QString → QString) (cfg : Preferences) (env : Env)
    (str : QString) (s : State) (hg : cfg.enableScanPopupModifiers = false)
    (hw : trim str ≠ []) :
    handleInputWord trim cfg env str s =
        engagePopup env false { s with pendingInputWord := trim str, inputWord := trim str }
      ∧ (handleInputWord trim cfg env str s).inputWord = trim str
      ∧ (handleInputWord trim cfg env str s).visible = true
      ∧ (∃ windowCalls, (∀ e ∈ windowCalls, e.isLookup = false) ∧
          (handleInputWord trim cfg env str s).effects =
            s.effects ++ windowCalls ++
              [Effect.showDefinition (trim str) s.currentGroup, Effect.prefixMatch (trim str),
               Effect.historyAddItem s.currentGroup (trimmed (trim str)), Effect.historySave])
      ∧ (∀ (held : Nat → Bool) (altMode : Bool),
          handleInputWord trim { cfg with scanPopupAltMode := altMode }
              { env with checkModifiersPressed := held } str s =
            handleInputWord trim cfg env str s) := by
  have h1 : handleInputWord trim cfg env str s =
      engagePopup env false { s with pendingInputWord := trim str, inputWord := trim str } := by
    rw [handleInputWord_of_nonempty trim cfg env str s hw]
    simp [hg]
  have hf := engagePopup_frame env false
    { s with pendingInputWord := trim str, inputWord := trim str }
  refine ⟨h1, by rw [h1]; exact hf.1, by rw [h1]; exact hf.2.2.2.2.2.2.1, ?_, ?_⟩
  · refine ⟨_, engageWindowCalls_not_lookup env false
      { s with pendingInputWord := trim str, inputWord := trim str }, ?_⟩
    rw [h1, engagePopup_effects]
    rfl
  · intro held altMode
    rw [h1, handleInputWord_of_nonempty trim _ _ str s hw]
    simp only [hg, Bool.false_eq_true, false_and, if_false]
    exact engagePopup_env_congr env _ false _ rfl rfl

/-- Witness for C6: with gating disabled, hovering "cat" commits "cat". -/
theorem C6_ungated_commit_witness :
    (handleInputWord id sampleCfg sampleEnv sampleCat sampleState).inputWord
      = sampleCat :=
  (C6_ungated_commit id sampleCfg sampleEnv sampleCat sampleState
    (by decide) (by decide)).2.1

/-- What `handleInputWord` does with an input whose normalized form is
empty. -/
theorem handleInputWord_of_empty (trim : QString → QString) (cfg : Preferences) (env : Env)
    (str : QString) (s : State) (hw : trim str = []) :
    handleInputWord trim cfg env str s =
      if cfg.scanPopupAltMode = true then
        { s with pendingInputWord := [], altModePollingTimer := false,
                 altModeExpirationTimer := false }
      else { s with pendingInputWord := [] } := by
  cases ha : cfg.scanPopupAltMode <;> simp [handleInputWord, hw, ha]

/-- What `translateWordFromClipboard` does when the normalized clipboard text
is empty. -/
theorem translateWordFromClipboard_of_empty (trim : QString → QString) (env : Env)
    (m : ClipboardMode) (s : State) (hw : trim (env.clipboardText m) = []) :
    translateWordFromClipboard trim env m s = { s with pendingInputWord := [] } := by
  simp [translateWordFromClipboard, hw]

/-- C7 (empty input is inert).  For an input event (hovered text, clipboard
change, hotkey-triggered clipboard or selection read) whose normalized text is
empty: no collaborator is called (the popup is not engaged, nothing is looked
up), the committed word and the visibility are unchanged, no timer becomes
active, and nothing but the pending word and the two alt-mode timers can
differ from before; and `handleInputWord` with alt mode enabled leaves both
alt-mode timers stopped. -/
theorem C7_empty_input_inert (trim : QString → QString) (cfg : Preferences) (env : Env)
    (e : Event) (str : QString) (s : State) (he : e.rawText env = some str)
    (hw : trim str = []) :
    (step trim cfg env e s).effects = s.effects
      ∧ (step trim cfg env e s).inputWord = s.inputWord
      ∧ (step trim cfg env e s).visible = s.visible
      ∧ ((step trim cfg env e s).hideTimer = true → s.hideTimer = true)
      ∧ ((step trim cfg env e s).altModePollingTimer = true → s.altModePollingTimer = true)
      ∧ ((step trim cfg env e s).altModeExpirationTimer = true →
          s.altModeExpirationTimer = true)
      ∧ step trim cfg env e s =
          { s with pendingInputWord := (step trim cfg env e s).pendingInputWord,
                   altModePollingTimer := (step trim cfg env e s).altModePollingTimer,
                   altModeExpirationTimer := (step trim cfg env e s).altModeExpirationTimer }
      ∧ (cfg.scanPopupAltMode = true →
          (handleInputWord trim cfg env str s).altModePollingTimer = false ∧
            (handleInputWord trim cfg env str s).altModeExpirationTimer = false) := by
  have hh := handleInputWord_of_empty trim cfg env str s hw
  have key : step trim cfg env e s = s ∨
      step trim cfg env e s = { s with pendingInputWord := [] } ∨
      (cfg.scanPopupAltMode = true ∧ step trim cfg env e s =
        { s with pendingInputWord := [], altModePollingTimer := false,
                 altModeExpirationTimer := false }) := by
    cases e with
    | mouseHovered str2 =>
      cases he
      simp only [step, mouseHovered, hh]
      cases cfg.scanPopupAltMode <;> simp
    | clipboardChanged m =>
      cases he
      cases hs : s.isScanningEnabled
      · left
        simp [step, clipboardChanged, hs]
      · right
        simp only [step, clipboardChanged, hs, hh]
        cases cfg.scanPopupAltMode <;> simp
    | translateWordFromClipboard m =>
      cases he
      right
      left
      simp only [step, translateWordFromClipboard_of_empty trim env m s hw]
    | _ => cases he
  refine ⟨?_, ?_, ?_, ?_, ?_, ?_, ?_, ?_⟩
  case refine_8 =>
    intro ha
    rw [hh]
    simp [ha]
  all_goals
    rcases key with h | h | ⟨_, h⟩ <;> rw [h] <;> first | rfl | exact id | simp

/-- Witness for C7: with white-space trimming as the normalizer, hovering a
single blank over the sample popup calls no collaborator. -/
theorem C7_empty_input_inert_witness :
    (step trimmed sampleAltCfg sampleEnv (Event.mouseHovered sampleBlank) sampleState).effects
      = sampleState.effects :=
  (C7_empty_input_inert trimmed sampleAltCfg sampleEnv (Event.mouseHovered sampleBlank) sampleBlank
    sampleState rfl (by decide)).1

/-- The function `hideWindow` keeps both words and the alt-mode timers. -/
theorem hideWindow_words (s : State) :
    (hideWindow s).pendingInputWord = s.pendingInputWord ∧
      (hideWindow s).inputWord = s.inputWord ∧
      (hideWindow s).altModePollingTimer = s.altModePollingTimer ∧
      (hideWindow s).altModeExpirationTimer = s.altModeExpirationTimer := by
  cases hi : s.mouseIntercepted <;> simp [hideWindow, uninterceptMouse, State.emit, hi]

/-- The function `uninterceptMouse` keeps both words and the alt-mode
timers. -/
theorem uninterceptMouse_words (s : State) :
    (uninterceptMouse s).pendingInputWord = s.pendingInputWord ∧
      (uninterceptMouse s).inputWord = s.inputWord ∧
      (uninterceptMouse s).altModePollingTimer = s.altModePollingTimer ∧
      (uninterceptMouse s).altModeExpirationTimer = s.altModeExpirationTimer := by
  cases hi : s.mouseIntercepted <;> simp [uninterceptMouse, State.emit, hi]

/-- The pin button's signal keeps both words and the alt-mode timers. -/
theorem pinButtonSignal_words (checked : Bool) (s : State) :
    (pinButtonSignal checked s).pendingInputWord = s.pendingInputWord ∧
      (pinButtonSignal checked s).inputWord = s.inputWord ∧
      (pinButtonSignal checked s).altModePollingTimer = s.altModePollingTimer ∧
      (pinButtonSignal checked s).altModeExpirationTimer = s.altModeExpirationTimer := by
  cases checked <;> cases hi : s.mouseIntercepted <;>
    simp [pinButtonSignal, pinButtonClicked, uninterceptMouse, setWindowFlags, showWidget,
      State.emit, hi]

/-- The pending word after `handleInputWord` is the normalized input. -/
theorem handleInputWord_pending (trim : QString → QString) (cfg : Preferences) (env : Env)
    (str : QString) (s : State) :
    (handleInputWord trim cfg env str s).pendingInputWord = trim str := by
  unfold handleInputWord
  simp only
  split_ifs <;> first | rfl | exact (engagePopup_frame _ _ _).2.1

/-- The pending word after `translateWordFromClipboard` is the normalized
clipboard text. -/
theorem translateWordFromClipboard_pending (trim : QString → QString) (env : Env)
    (m : ClipboardMode) (s : State) :
    (translateWordFromClipboard trim env m s).pendingInputWord = trim (env.clipboardText m) := by
  unfold translateWordFromClipboard
  simp only
  split_ifs <;> first | rfl | exact (engagePopup_frame _ _ _).2.1

/-- Only input events write the pending word. -/
theorem step_pending (trim : QString → QString) (cfg : Preferences) (env : Env) (e : Event)
    (s : State) :
    (step trim cfg env e s).pendingInputWord =
      (inputOf trim env s e).getD s.pendingInputWord := by
  cases e with
  | mouseHovered str => exact handleInputWord_pending trim cfg env str s
  | clipboardChanged m =>
    simp only [step, clipboardChanged, inputOf]
    cases s.isScanningEnabled
    · rfl
    · exact handleInputWord_pending trim cfg env _ s
  | translateWordFromClipboard m => exact translateWordFromClipboard_pending trim env m s
  | engagePopup giveFocus => exact (engagePopup_frame env giveFocus s).2.1
  | eventFilter watchedIsThis event =>
    simp only [step, eventFilter, inputOf, Option.getD_none]
    cases event with
    | Other => split_ifs <;> rfl
    | MouseMove globalPos =>
      simp only
      split_ifs <;>
        first | rfl | exact (uninterceptMouse_words _).1
  | mousePressEvent globalPos =>
    simp only [step, mousePressEvent, inputOf, Option.getD_none]
    split_ifs <;> first | rfl | exact (hideWindow_words _).1
  | mouseMoveEvent buttons globalPos =>
    simp only [step, mouseMoveEvent, inputOf, Option.getD_none]
    split_ifs <;> rfl
  | mouseReleaseEvent => rfl
  | leaveEvent =>
    simp only [step, leaveEvent, inputOf, Option.getD_none]
    split_ifs <;> rfl
  | enterEvent =>
    simp only [step, enterEvent, inputOf, Option.getD_none]
    split_ifs <;> rfl
  | pinButtonClicked checked =>
    exact (pinButtonSignal_words checked s).1
  | hideTimerTimeout =>
    simp only [step, hideTimerExpired, inputOf, Option.getD_none]
    split_ifs <;> first | rfl | exact (hideWindow_words _).1
  | altModeExpirationTimeout =>
    simp only [step, altModeExpired, inputOf, Option.getD_none]
    split_ifs <;> rfl
  | altModePollingTimeout =>
    simp only [step, altModePoll, inputOf, Option.getD_none]
    split_ifs <;> first | rfl | exact (engagePopup_frame _ _ _).2.1
  | escapePressed =>
    simp only [step, escapePressed, inputOf, Option.getD_none]
    split_ifs <;> first | rfl | exact (hideWindow_words _).1
  | prefixMatchFinished errorString results =>
    simp only [step, prefixMatchFinished, inputOf, Option.getD_none]
    split_ifs <;> rfl
  | wordListButtonClicked results choice =>
    simp only [step, on_wordListButton_clicked, inputOf, Option.getD_none]
    split_ifs
    · rfl
    · rfl
    · cases wordListMenu results with
      | none => rfl
      | some menu =>
        simp only
        cases choice.bind (fun i => menu[i]?) <;> rfl
  | pronounceButtonClicked => rfl
  | pageLoaded =>
    simp only [step, pageLoaded, inputOf, Option.getD_none]
    split_ifs <;> rfl
  | currentGroupChanged group =>
    simp only [step, currentGroupChanged, inputOf, Option.getD_none]
    cases hv : s.visible <;> simp [initiateTranslation, State.emit]
  | enableScanning =>
    simp only [step, enableScanning, inputOf, Option.getD_none]
    split_ifs <;> rfl
  | disableScanning =>
    simp only [step, disableScanning, inputOf, Option.getD_none]
    split_ifs <;> rfl

/-- The pending word after a run is the normalized text of its most recent
input event. -/
theorem run_pending (trim : QString → QString) (trace : List (Preferences × Env × Event))
    (s : State) (last : Option QString) (h : s.pendingInputWord = last.getD []) :
    (run trim s trace).pendingInputWord = (lastInput trim s last trace).getD [] := by
  induction trace generalizing s last with
  | nil => exact h
  | cons a rest ih =>
    obtain ⟨cfg, env, e⟩ := a
    simp only [run, lastInput]
    apply ih
    rw [step_pending]
    cases inputOf trim env s e with
    | none => exact h
    | some w => rfl

/-- C8 (single-slot supersession).  After `handleInputWord` or
`translateWordFromClipboard` the pending word is the normalized text of that
event, whatever was pending before; so after any run from the initial state the
pending word is the normalized text of the most recent input event, a poll
tick that commits (polling timer active, pending word not empty, modifiers
held) commits exactly that word and looks it up, and a poll tick that does not
commit leaves the committed word and the record of collaborator calls as they
were: no superseded candidate is ever committed. -/
theorem C8_single_slot_supersession (trim : QString → QString) (size : QSize) (group : Nat)
    (trace : List (Preferences × Env × Event)) (cfg : Preferences) (env : Env) :
    (∀ (str : QString) (s : State),
        (handleInputWord trim cfg env str s).pendingInputWord = trim str)
      ∧ (∀ (m : ClipboardMode) (s : State),
        (translateWordFromClipboard trim env m s).pendingInputWord = trim (env.clipboardText m))
      ∧ (run trim (State.initial size group) trace).pendingInputWord =
          (lastInput trim (State.initial size group) none trace).getD []
      ∧ (((run trim (State.initial size group) trace).altModePollingTimer = true ∧
            (run trim (State.initial size group) trace).pendingInputWord ≠ [] ∧
            env.checkModifiersPressed cfg.scanPopupModifiers = true) →
          lastInput trim (State.initial size group) none trace =
              some (step trim cfg env Event.altModePollingTimeout
                (run trim (State.initial size group) trace)).inputWord
            ∧ ∃ windowCalls, (∀ c ∈ windowCalls, c.isLookup = false) ∧
                (step trim cfg env Event.altModePollingTimeout
                  (run trim (State.initial size group) trace)).effects =
                  (run trim (State.initial size group) trace).effects ++ windowCalls ++
                    lookupCalls (step trim cfg env Event.altModePollingTimeout
                      (run trim (State.initial size group) trace)))
      ∧ (¬ ((run trim (State.initial size group) trace).altModePollingTimer = true ∧
            (run trim (State.initial size group) trace).pendingInputWord ≠ [] ∧
            env.checkModifiersPressed cfg.scanPopupModifiers = true) →
          (step trim cfg env Event.altModePollingTimeout
              (run trim (State.initial size group) trace)).inputWord =
            (run trim (State.initial size group) trace).inputWord
          ∧ (step trim cfg env Event.altModePollingTimeout
              (run trim (State.initial size group) trace)).effects =
            (run trim (State.initial size group) trace).effects) := by
  have hp := run_pending trim trace (State.initial size group) none rfl
  refine ⟨fun str s => handleInputWord_pending trim cfg env str s,
    fun m s => translateWordFromClipboard_pending trim env m s, hp, ?_, ?_⟩
  · rintro ⟨ht, hw, hm⟩
    have hs : step trim cfg env Event.altModePollingTimeout
        (run trim (State.initial size group) trace) =
        engagePopup env false
          { run trim (State.initial size group) trace with
              altModePollingTimer := false, altModeExpirationTimer := false,
              inputWord := (run trim (State.initial size group) trace).pendingInputWord } := by
      simp only [step, ht, if_true]
      rw [altModePoll_of_pending _ _ _ hw]
      simp [hm]
    rw [hs]
    have hf := engagePopup_frame env false
      { run trim (State.initial size group) trace with
          altModePollingTimer := false, altModeExpirationTimer := false,
          inputWord := (run trim (State.initial size group) trace).pendingInputWord }
    refine ⟨?_, _, engageWindowCalls_not_lookup env false
      { run trim (State.initial size group) trace with
          altModePollingTimer := false, altModeExpirationTimer := false,
          inputWord := (run trim (State.initial size group) trace).pendingInputWord }, ?_⟩
    · rw [hf.1]
      simp only
      cases hl : lastInput trim (State.initial size group) none trace with
      | none =>
        rw [hl] at hp
        exact absurd hp hw
      | some w =>
        rw [hl] at hp
        rw [hp]
        rfl
    · rw [engagePopup_effects]
      simp only [lookupCalls, hf.1, hf.2.2.2.2.2.1]
  · intro hn
    simp only [step, altModePoll]
    split_ifs with h1 h2 h3
    · exact ⟨rfl, rfl⟩
    · exfalso
      apply hn
      refine ⟨h1, ?_, h3⟩
      intro h0
      apply h2
      rw [h0]
      rfl
    · exact ⟨rfl, rfl⟩
    · exact ⟨rfl, rfl⟩

/-- Witness for C8: "cat" is hovered and deferred, then "dog" is hovered and
deferred; the poll tick at which the modifier is held commits "dog". -/
theorem C8_single_slot_supersession_witness :
    lastInput id (State.initial ⟨300, 200⟩ 0) none sampleSupersedeTrace =
        some (step id sampleAltCfg sampleHeldEnv Event.altModePollingTimeout
          (run id (State.initial ⟨300, 200⟩ 0) sampleSupersedeTrace)).inputWord ∧
      (step id sampleAltCfg sampleHeldEnv Event.altModePollingTimeout
        (run id (State.initial ⟨300, 200⟩ 0) sampleSupersedeTrace)).inputWord
        = sampleDog :=
  ⟨((C8_single_slot_supersession id ⟨300, 200⟩ 0 sampleSupersedeTrace sampleAltCfg
    sampleHeldEnv).2.2.2.1 (by decide)).1, by decide⟩

/-! ## Pinning -/

/-- C9 (pin-on transition).  From a visible, unpinned popup, whether or not it
is intercepting and whether or not the hide countdown runs, the pin button's
`clicked( true )` leads to a visible, pinned popup with interception off, the
hide countdown inactive and the window title equal to the elided committed
word; the only collaborator calls are the release of the grab (when there was
one), `setWindowFlags( Qt::Dialog )` and `show()`, so the popup is never
hidden on the way. -/
theorem C9_pin_on_transition (s : State) (hv : s.visible = true) (hp : s.pinChecked = false) :
    (pinButtonSignal true s).visible = true
      ∧ (pinButtonSignal true s).pinChecked = true
      ∧ (pinButtonSignal true s).mouseIntercepted = false
      ∧ (pinButtonSignal true s).hideTimer = false
      ∧ (pinButtonSignal true s).windowTitle = elideInputWord s
      ∧ (pinButtonSignal true s).visible = s.visible
      ∧ (pinButtonSignal true s).pinChecked = !s.pinChecked
      ∧ (pinButtonSignal true s).windowFlags = WindowFlags.Dialog
      ∧ (pinButtonSignal true s).effects =
          s.effects ++ (if s.mouseIntercepted then
              [Effect.removeEventFilter, Effect.releaseMouse] else [])
            ++ [Effect.setWindowFlags WindowFlags.Dialog, Effect.showWindow]
      ∧ Effect.hideWindow ∉ (pinButtonSignal true s).effects.drop s.effects.length
      ∧ (∀ (trim : QString → QString) (cfg : Preferences) (env : Env),
          step trim cfg env (Event.pinButtonClicked true) s = pinButtonSignal true s) := by
  cases hi : s.mouseIntercepted <;>
    simp [pinButtonSignal, pinButtonClicked, uninterceptMouse, setWindowFlags, showWidget,
      State.emit, hi, hv, hp, elideInputWord, step]

/-- Witness for C9: pinning the sample popup right after it was shown. -/
theorem C9_pin_on_transition_witness :
    (pinButtonSignal true sampleShown).visible = true
      ∧ (pinButtonSignal true sampleShown).pinChecked = true
      ∧ (pinButtonSignal true sampleShown).mouseIntercepted = false :=
  ⟨(C9_pin_on_transition sampleShown (by decide) (by decide)).1,
   (C9_pin_on_transition sampleShown (by decide) (by decide)).2.1,
   (C9_pin_on_transition sampleShown (by decide) (by decide)).2.2.1⟩

/-! ## Text and code units -/

/-- The code units of a character followed by more characters. -/
theorem toQString_cons (c : Char) (cs : List Char) :
    toQString (c :: cs) = utf16 c ++ toQString cs := by
  simp [toQString]

/-- The code units of two pieces of text, one after the other. -/
theorem toQString_append (cs ds : List Char) :
    toQString (cs ++ ds) = toQString cs ++ toQString ds := by
  simp [toQString]

/-- A character below U+10000 is one code unit. -/
theorem utf16_length_of_bmp (c : Char) (h : c.toNat < 0x10000) : (utf16 c).length = 1 := by
  simp [utf16, h]

/-- Text below U+10000 has as many code units as characters, and cutting it
after `n` code units cuts it after `n` characters. -/
theorem toQString_of_bmp (cs : List Char) (h : ∀ c ∈ cs, c.toNat < 0x10000) :
    (toQString cs).length = cs.length ∧
      ∀ n, (toQString cs).take n = toQString (cs.take n) := by
  induction cs with
  | nil => exact ⟨rfl, fun n => by simp [toQString]⟩
  | cons c cs ih =>
    have hc : c.toNat < 0x10000 := h c (List.mem_cons_self c cs)
    have ih2 := ih (fun d hd => h d (List.mem_cons_of_mem c hd))
    have hu : utf16 c = [Fin.ofNat c.toNat] := by simp [utf16, hc]
    refine ⟨?_, ?_⟩
    · rw [toQString_cons, List.length_append, utf16_length_of_bmp c hc, ih2.1,
        List.length_cons]
      omega
    · intro n
      cases n with
      | zero => simp [toQString]
      | succ n =>
        rw [toQString_cons, hu, List.take_succ_cons, toQString_cons, hu]
        simp only [List.singleton_append, List.take_succ_cons, ih2.2 n]

/-! ## The more-results menu -/

/-- The short words of a list that starts with an oversized word. -/
theorem shortWords_cons_long (r : QString × Bool) (rest : List (QString × Bool))
    (h : r.1.length > 64) : shortWords (r :: rest) = shortWords rest := by
  have h2 : ¬ r.1.length ≤ 64 := by omega
  simp [shortWords, h2]

/-- The short words of a list that starts with a short word. -/
theorem shortWords_cons_short (r : QString × Bool) (rest : List (QString × Bool))
    (h : ¬ r.1.length > 64) : shortWords (r :: rest) = r.1 :: shortWords rest := by
  have h2 : r.1.length ≤ 64 := by omega
  simp [shortWords, h2]

/-- There are no more short words than results. -/
theorem shortWords_length_le (results : List (QString × Bool)) :
    (shortWords results).length ≤ results.length := by
  unfold shortWords
  exact (List.length_filter_le _ _).trans (by simp)

/-- The loop of `on_wordListButton_clicked` always finishes within its fuel
and never indexes outside `results`: from index `x` with bound
`total <= results.size()` it adds the first `total - x` short words of the
results from `x` on. -/
theorem wordListLoop_eq (results : List (QString × Bool)) (fuel x total : Nat)
    (menu : List QString) (hf : results.length - x < fuel) (ht : total ≤ results.length) :
    wordListLoop results fuel x total menu =
      some (menu ++ (shortWords (results.drop x)).take (total - x)) := by
  induction fuel generalizing x total menu with
  | zero => omega
  | succ fuel ih =>
    unfold wordListLoop
    by_cases hx : x < total
    · have hlen : x < results.length := by omega
      have hd : results.drop x = results[x] :: results.drop (x + 1) :=
        List.drop_eq_getElem_cons hlen
      simp only [hx, if_true, List.getElem?_eq_getElem hlen]
      by_cases hl : results[x].1.length > 64
      · simp only [hl, if_true]
        rw [hd, shortWords_cons_long _ _ hl]
        by_cases htl : total < results.length
        · simp only [htl, if_true]
          rw [ih (x + 1) (total + 1) menu (by omega) (by omega)]
          have : total + 1 - (x + 1) = total - x := by omega
          rw [this]
        · simp only [htl, if_false]
          rw [ih (x + 1) total menu (by omega) ht]
          have hle := shortWords_length_le (results.drop (x + 1))
          rw [List.length_drop] at hle
          rw [List.take_of_length_le (by omega), List.take_of_length_le (by omega)]
      · simp only [hl, if_false]
        rw [hd, shortWords_cons_short _ _ hl]
        rw [ih (x + 1) total (menu ++ [results[x].1]) (by omega) ht]
        have : total - x = (total - (x + 1)) + 1 := by omega
        rw [this, List.take_succ_cons]
        simp
    · simp only [hx, if_false]
      have : total - x = 0 := by omega
      rw [this]
      simp

/-- Every result is either short or oversized. -/
theorem shortWords_length_add (results : List (QString × Bool)) :
    (shortWords results).length +
      (results.filter (fun r => decide (r.1.length > 64))).length = results.length := by
  induction results with
  | nil => rfl
  | cons r rest ih =>
    by_cases hl : r.1.length > 64
    · rw [shortWords_cons_long _ _ hl, List.filter_cons_of_pos (by simpa using hl)]
      simp only [List.length_cons]
      omega
    · rw [shortWords_cons_short _ _ hl, List.filter_cons_of_neg (by simpa using hl)]
      simp only [List.length_cons]
      omega

/-- The menu built by the loop is the menu of the specification. -/
theorem wordListMenu_eq_specMenu (results : List (QString × Bool)) :
    wordListMenu results = some (specMenu results) := by
  unfold wordListMenu specMenu
  simp only
  rw [wordListLoop_eq results _ 0 _ [] (by omega) (by split_ifs <;> omega)]
  simp only [List.drop_zero, List.nil_append, Nat.sub_zero]
  have hle := shortWords_length_le results
  split_ifs with h
  · rw [List.take_of_length_le (by omega), List.take_of_length_le (by omega)]
  · by_cases hk : 40 ≤ (shortWords results).length
    · rw [Nat.min_eq_left hk]
    · rw [List.take_of_length_le (by omega), List.take_of_length_le (by omega)]

/-- C10 (more-results menu), as amended: on a visible popup with a non-empty
result list, `on_wordListButton_clicked` finishes and pops up a menu that
holds exactly the first `min(40, k)` results of at most 64 UTF-16 code units
(`QString::size()`; a character from U+10000 on counts as two) in their
original order, `k` being the number of such results in the whole list; no
entry has more than 64 code units; for 45 results of which exactly 2 have more
than 64 code units the menu has 40 entries wherever those 2 are; and for a
word made of characters below U+10000 the test is the one on its number of
characters. -/
theorem C10_more_results_menu_in_code_units (results : List (QString × Bool)) (choice : Option Nat)
    (s : State) (hv : s.visible = true) (hr : results ≠ []) :
    wordListMenu results = some (specMenu results)
      ∧ (∃ t, on_wordListButton_clicked results choice s = some t ∧
          t.effects = s.effects ++ Effect.menuExec (specMenu results) ::
            (match choice.bind (fun i => (specMenu results)[i]?) with
              | some text => [Effect.showDefinition text s.currentGroup]
              | none => []))
      ∧ specMenu results =
          ((results.map Prod.fst).filter (fun w => decide (w.length ≤ 64))).take
            (min 40 ((results.map Prod.fst).filter (fun w => decide (w.length ≤ 64))).length)
      ∧ (∀ w ∈ specMenu results, w.length ≤ 64)
      ∧ (specMenu results).Sublist (results.map Prod.fst)
      ∧ (results.length = 45 →
          (results.filter (fun r => decide (r.1.length > 64))).length = 2 →
          (specMenu results).length = 40)
      ∧ (∀ cs : List Char, (∀ c ∈ cs, c.toNat < 0x10000) →
          ((toQString cs).length ≤ 64 ↔ cs.length ≤ 64)) := by
  have hm := wordListMenu_eq_specMenu results
  refine ⟨hm, ?_, rfl, ?_, ?_, ?_, fun cs hcs => by rw [(toQString_of_bmp cs hcs).1]⟩
  · have hne : results.isEmpty = false := by
      cases results with
      | nil => exact absurd rfl hr
      | cons r rest => rfl
    unfold on_wordListButton_clicked
    simp only [hv, hne, hm, Bool.not_true, Bool.false_eq_true, if_false]
    cases choice.bind (fun i => (specMenu results)[i]?) with
    | none => exact ⟨_, rfl, by simp [State.emit]⟩
    | some text => exact ⟨_, rfl, by simp [State.emit]⟩
  · intro w hw
    have h1 := List.mem_of_mem_take hw
    simp only [shortWords, List.mem_filter, decide_eq_true_eq] at h1
    exact h1.2
  · exact (List.take_sublist _ _).trans (List.filter_sublist _)
  · intro h45 h2
    have hadd := shortWords_length_add results
    simp only [specMenu, List.length_take]
    omega

/-- Witness for C10: of "cat", a 65-character word and "dog", the menu offers
"cat" and "dog". -/
theorem C10_more_results_menu_in_code_units_witness :
    wordListMenu sampleResults = some [sampleCat, sampleDog] :=
  (C10_more_results_menu_in_code_units sampleResults none sampleShown (by decide)
    (by decide)).1.trans (by decide)

/-- C10 as stated fails: the only result is a word of 40 characters U+1F600,
which is at most 64 characters long, so the menu should offer it; it has 80
code units, the loop skips it, and the menu that pops up on the visible sample
popup is empty. -/
theorem C10_menu_characters_counterexample :
    sampleShown.visible = true ∧ sampleEmojiResults ≠ [] ∧
      sampleEmojiResults.map Prod.fst = [toQString (List.replicate 40 (Char.ofNat 0x1F600))] ∧
      (List.replicate 40 (Char.ofNat 0x1F600)).length ≤ 64 ∧
      wordListMenu sampleEmojiResults = some [] ∧
      (on_wordListButton_clicked sampleEmojiResults none sampleShown).map State.effects =
        some (sampleShown.effects ++ [Effect.menuExec []]) := by
  decide

/-! ## Elision -/

/-- C11 (elision), as amended: `elideInputWord` returns the committed word
unchanged when it has at most 32 UTF-16 code units (`QString::size()`; a
character from U+10000 on counts as two), and otherwise its first 32 code
units followed by "...", 35 code units in all.  For a word made of characters
below U+10000 this is the count in characters: unchanged up to 32 characters,
such as "ephemeral", and the first 32 characters plus "..." beyond, as for
every such word of 40 characters.  Both the title label set by `engagePopup`
and the window title set by `pinButtonClicked( true )` are this value. -/
theorem C11_elision_in_code_units (s : State) :
    (s.inputWord.length ≤ 32 → elideInputWord s = s.inputWord)
      ∧ (32 < s.inputWord.length →
          elideInputWord s = s.inputWord.take 32 ++ toQString ['.', '.', '.'] ∧
            (elideInputWord s).length = 35)
      ∧ (∀ cs : List Char, (∀ c ∈ cs, c.toNat < 0x10000) → s.inputWord = toQString cs →
          (cs.length ≤ 32 → elideInputWord s = toQString cs) ∧
            (32 < cs.length →
              elideInputWord s = toQString (cs.take 32 ++ ['.', '.', '.'])) ∧
            (cs.length = 40 →
              elideInputWord s = toQString (cs.take 32 ++ ['.', '.', '.'])))
      ∧ (s.inputWord = toQString ['e', 'p', 'h', 'e', 'm', 'e', 'r', 'a', 'l'] →
          elideInputWord s = toQString ['e', 'p', 'h', 'e', 'm', 'e', 'r', 'a', 'l'])
      ∧ (∀ (env : Env) (giveFocus : Bool),
          (engagePopup env giveFocus s).wordText = elideInputWord s)
      ∧ (pinButtonClicked true s).windowTitle = elideInputWord s := by
  have hshort : s.inputWord.length ≤ 32 → elideInputWord s = s.inputWord := by
    intro h
    have h2 : ¬ s.inputWord.length > 32 := by omega
    simp [elideInputWord, h2]
  have hlong : 32 < s.inputWord.length →
      elideInputWord s = s.inputWord.take 32 ++ toQString ['.', '.', '.'] := by
    intro h
    simp [elideInputWord, h]
  have hdots : (toQString ['.', '.', '.']).length = 3 := by decide
  have hbmp : ∀ cs : List Char, (∀ c ∈ cs, c.toNat < 0x10000) → s.inputWord = toQString cs →
      32 < cs.length → elideInputWord s = toQString (cs.take 32 ++ ['.', '.', '.']) := by
    intro cs hcs hw h
    have hb := toQString_of_bmp cs hcs
    rw [hlong (by rw [hw, hb.1]; exact h), hw, hb.2 32, toQString_append]
  refine ⟨hshort, ?_, ?_, ?_, ?_, ?_⟩
  · intro h
    refine ⟨hlong h, ?_⟩
    rw [hlong h, List.length_append, List.length_take, hdots]
    omega
  · intro cs hcs hw
    have hb := toQString_of_bmp cs hcs
    refine ⟨?_, hbmp cs hcs hw, fun h => hbmp cs hcs hw (by omega)⟩
    intro h
    rw [hshort (by rw [hw, hb.1]; exact h), hw]
  · intro h
    rw [hshort (by rw [h]; decide), h]
  · intro env giveFocus
    exact (engagePopup_frame env giveFocus s).2.2.2.2.2.2.2
  · cases hi : s.mouseIntercepted <;>
      simp [pinButtonClicked, uninterceptMouse, setWindowFlags, showWidget, State.emit, hi,
        elideInputWord]

/-- Witness for C11: "ephemeral" is shown as it is, and the 40-character
sample word is cut after its 32 leading characters. -/
theorem C11_elision_in_code_units_witness :
    elideInputWord sampleEphemeral = toQString ['e', 'p', 'h', 'e', 'm', 'e', 'r', 'a', 'l'] ∧
      elideInputWord sampleLongWord = toQString (List.replicate 32 'a' ++ ['.', '.', '.']) :=
  ⟨(C11_elision_in_code_units sampleEphemeral).1 (by decide),
   ((C11_elision_in_code_units sampleLongWord).2.1 (by decide)).1.trans (by decide)⟩

/-- C11 as stated fails: the committed word of 20 characters U+1F600 has at
most 32 characters, yet it is not returned unchanged; it has 40 code units, so
`elideInputWord` returns its first 32 code units, which are 16 characters,
followed by "...". -/
theorem C11_elision_characters_counterexample :
    (List.replicate 20 (Char.ofNat 0x1F600)).length ≤ 32 ∧
      sampleEmoji.inputWord = toQString (List.replicate 20 (Char.ofNat 0x1F600)) ∧
      elideInputWord sampleEmoji ≠ sampleEmoji.inputWord ∧
      elideInputWord sampleEmoji =
        toQString (List.replicate 16 (Char.ofNat 0x1F600) ++ ['.', '.', '.']) := by
  decide

/-! ## Completion of the asynchronous match -/

/-- C12 (async match completion).  When `prefixMatchFinished` runs on a hidden
popup nothing changes, in particular not the error indicator, its tooltip or
the more-results button.  On a visible popup a non-empty error string `e`
shows the error indicator with tooltip `e`; an empty one hides the indicator,
and the more-results button is then visible exactly when there are
results. -/
theorem C12_async_match_completion (e : QString) (r : List (QString × Bool)) (s : State) :
    (s.visible = false → prefixMatchFinished e r s = s)
      ∧ (s.visible = true → e ≠ [] →
          (prefixMatchFinished e r s).queryErrorVisible = true ∧
            (prefixMatchFinished e r s).queryErrorToolTip = e)
      ∧ (s.visible = true → e = [] →
          (prefixMatchFinished e r s).queryErrorVisible = false ∧
            (prefixMatchFinished e r s).queryErrorToolTip = s.queryErrorToolTip ∧
            ((prefixMatchFinished e r s).wordListButtonVisible = true ↔ r ≠ []))
      ∧ (s.visible = true →
          ((prefixMatchFinished e r s).wordListButtonVisible = true ↔ r ≠ []) ∧
            (prefixMatchFinished e r s).visible = true ∧
            (prefixMatchFinished e r s).effects = s.effects) := by
  refine ⟨?_, ?_, ?_, ?_⟩
  · intro hv
    simp [prefixMatchFinished, hv]
  · intro hv he
    have hl : e.length ≠ 0 := fun h => he (List.length_eq_zero.mp h)
    simp [prefixMatchFinished, hv, hl]
  · intro hv he
    simp [prefixMatchFinished, hv, he]
  · intro hv
    by_cases hl : e.length = 0 <;> simp [prefixMatchFinished, hv, hl]

/-- Witness for C12: the matcher reports "timeout"; the hidden sample popup is
left alone, the shown one gets the error indicator with that tooltip. -/
theorem C12_async_match_completion_witness :
    prefixMatchFinished sampleTimeout [] sampleState = sampleState ∧
      (prefixMatchFinished sampleTimeout [] sampleShown).queryErrorVisible = true ∧
      (prefixMatchFinished sampleTimeout [] sampleShown).queryErrorToolTip = sampleTimeout :=
  ⟨(C12_async_match_completion sampleTimeout [] sampleState).1 (by decide),
   (C12_async_match_completion sampleTimeout [] sampleShown).2.1 (by decide) (by decide)⟩

/-! ## Re-engaging -/

/-- The state fields that `engagePopup` leaves alone on a visible popup. -/
theorem engagePopup_of_visible (env : Env) (giveFocus : Bool) (s : State)
    (hv : s.visible = true) :
    (engagePopup env giveFocus s).pos = s.pos ∧
      (engagePopup env giveFocus s).mouseEnteredOnce = s.mouseEnteredOnce ∧
      (engagePopup env giveFocus s).mouseIntercepted = s.mouseIntercepted ∧
      (engagePopup env giveFocus s).hideTimer = s.hideTimer ∧
      (engagePopup env giveFocus s).size = s.size := by
  cases hp : s.pinChecked <;>
    simp [engagePopup, initiateTranslation, showWidget, State.emit, hv, hp]

/-- A pinned popup is not moved by `engagePopup`. -/
theorem engagePopup_pos_of_pinned (env : Env) (giveFocus : Bool) (s : State)
    (hp : s.pinChecked = true) : (engagePopup env giveFocus s).pos = s.pos := by
  cases hv : s.visible <;> cases giveFocus <;>
    simp [engagePopup, initiateTranslation, showWidget, State.emit, hv, hp]

/-- The lookup calls of a state are lookup calls. -/
theorem lookupCalls_filter (s : State) : (lookupCalls s).filter Effect.isLookup = lookupCalls s := by
  simp [lookupCalls, Effect.isLookup]

/-- C13 (re-engage does not move).  On a popup that is already visible, pinned
or not, `engagePopup` leaves the window position, the visibility, the pin
state, `mouseEnteredOnce` and the interception flag as they are and issues no
`move`.  In every state the calls it adds contain the lookup exactly once
(`showDefinition` and `prefixMatch` with the committed word, one history entry
and its save), and the window position changes only if the popup was hidden
and unpinned. -/
theorem C13_reengage_does_not_move (env : Env) (giveFocus : Bool) (s : State) :
    (s.visible = true →
        (engagePopup env giveFocus s).pos = s.pos ∧
          (engagePopup env giveFocus s).visible = s.visible ∧
          (engagePopup env giveFocus s).pinChecked = s.pinChecked ∧
          (engagePopup env giveFocus s).mouseEnteredOnce = s.mouseEnteredOnce ∧
          (engagePopup env giveFocus s).mouseIntercepted = s.mouseIntercepted ∧
          ∀ a b, Effect.move a b ∉ (engagePopup env giveFocus s).effects.drop s.effects.length)
      ∧ ((engagePopup env giveFocus s).effects.drop s.effects.length).filter Effect.isLookup =
          [Effect.showDefinition s.inputWord s.currentGroup, Effect.prefixMatch s.inputWord,
           Effect.historyAddItem s.currentGroup (trimmed s.inputWord), Effect.historySave]
      ∧ ((engagePopup env giveFocus s).pos ≠ s.pos →
          s.visible = false ∧ s.pinChecked = false) := by
  have he := engagePopup_effects env giveFocus s
  have hd : (engagePopup env giveFocus s).effects.drop s.effects.length =
      engageWindowCalls env giveFocus s ++ lookupCalls s := by
    rw [he, List.append_assoc, List.drop_left]
  refine ⟨?_, ?_, ?_⟩
  · intro hv
    have h := engagePopup_of_visible env giveFocus s hv
    have hf := engagePopup_frame env giveFocus s
    refine ⟨h.1, by rw [hf.2.2.2.2.2.2.1, hv], hf.2.2.2.2.1, h.2.1, h.2.2.1, ?_⟩
    intro a b
    rw [hd]
    cases hp : s.pinChecked <;> simp [engageWindowCalls, lookupCalls, hv, hp]
  · rw [hd, List.filter_append, lookupCalls_filter]
    have hw : (engageWindowCalls env giveFocus s).filter Effect.isLookup = [] := by
      rw [List.filter_eq_nil_iff]
      intro c hc
      rw [engageWindowCalls_not_lookup env giveFocus s c hc]
      exact Bool.false_ne_true
    rw [hw]
    rfl
  · intro hne
    cases hv : s.visible
    · cases hp : s.pinChecked
      · exact ⟨rfl, rfl⟩
      · exact absurd (engagePopup_pos_of_pinned env giveFocus s hp) hne
    · exact absurd (engagePopup_of_visible env giveFocus s hv).1 hne

/-- Witness for C13: re-engaging the shown sample popup with the cursor now
at `(100, 100)` leaves it at `(1596, 515)`. -/
theorem C13_reengage_does_not_move_witness :
    (engagePopup sampleMovedEnv true sampleShown).pos = ⟨1596, 515⟩ :=
  ((C13_reengage_does_not_move sampleMovedEnv true sampleShown).1 (by decide)).1.trans
    (by decide)

/-! ## Active dictionaries -/

/-- C14 (group fallback).  For every group list and every selected index `i`,
negative or too large included, `getActiveDicts` returns a dictionary list
without indexing outside the group list: the dictionaries of group `i` when
`0 <= i < n`, and all dictionaries otherwise. -/
theorem C14_group_fallback {α : Type} (allDictionaries : List α) (groups : List (List α))
    (i : Int) :
    (∃ dicts, getActiveDicts allDictionaries groups i = some dicts)
      ∧ (∀ h : 0 ≤ i ∧ i < (groups.length : Int),
          getActiveDicts allDictionaries groups i =
            some (groups.get ⟨i.toNat, by omega⟩))
      ∧ (¬ (0 ≤ i ∧ i < (groups.length : Int)) →
          getActiveDicts allDictionaries groups i = some allDictionaries) := by
  have hin : ∀ h : 0 ≤ i ∧ i < (groups.length : Int),
      getActiveDicts allDictionaries groups i = some (groups.get ⟨i.toNat, by omega⟩) := by
    intro h
    have h1 : ¬ i < 0 := by omega
    have h2 : ¬ i ≥ (groups.length : Int) := by omega
    have h3 : i.toNat < groups.length := by omega
    simp only [getActiveDicts, h1, h2, decide_False, Bool.or_self, Bool.false_eq_true,
      if_false, List.getElem?_eq_getElem h3]
    rfl
  have hout : ¬ (0 ≤ i ∧ i < (groups.length : Int)) →
      getActiveDicts allDictionaries groups i = some allDictionaries := by
    intro h
    have h1 : i < 0 ∨ i ≥ (groups.length : Int) := by omega
    simp only [getActiveDicts]
    rcases h1 with h1 | h1 <;> simp [h1]
  refine ⟨?_, hin, hout⟩
  by_cases h : 0 ≤ i ∧ i < (groups.length : Int)
  · exact ⟨_, hin h⟩
  · exact ⟨_, hout h⟩

/-- Witness for C14: with two groups, index 1 selects the second group and
index 2, like index -1, selects all dictionaries. -/
theorem C14_group_fallback_witness :
    getActiveDicts sampleAllDictionaries sampleGroups 1 = some [3] ∧
      getActiveDicts sampleAllDictionaries sampleGroups 2 = some [1, 2, 3, 4] ∧
      getActiveDicts sampleAllDictionaries sampleGroups (-1) = some [1, 2, 3, 4] :=
  ⟨(C14_group_fallback sampleAllDictionaries sampleGroups 1).2.1 (by decide),
   (C14_group_fallback sampleAllDictionaries sampleGroups 2).2.2 (by decide),
   (C14_group_fallback sampleAllDictionaries sampleGroups (-1)).2.2 (by decide)⟩

/-! ## The alt-mode timers -/

/-- The alt-mode timer invariant only looks at the two timers. -/
theorem AltTimerInv.congr_timers {s t : State} (h : AltTimerInv s)
    (hp : t.altModePollingTimer = s.altModePollingTimer)
    (he : t.altModeExpirationTimer = s.altModeExpirationTimer) : AltTimerInv t := by
  unfold AltTimerInv at *
  rw [hp, he]
  exact h

/-- A state whose polling timer is stopped satisfies the invariant. -/
theorem AltTimerInv.of_stopped {t : State} (hp : t.altModePollingTimer = false) :
    AltTimerInv t := by
  intro h
  rw [hp] at h
  cases h

/-- The function `handleInputWord` keeps the alt-mode timer invariant. -/
theorem handleInputWord_altTimerInv (trim : QString → QString) (cfg : Preferences) (env : Env)
    (str : QString) (s : State) (h : AltTimerInv s) :
    AltTimerInv (handleInputWord trim cfg env str s) := by
  unfold handleInputWord
  simp only
  split_ifs
  · exact AltTimerInv.of_stopped rfl
  · exact h
  · exact fun _ => rfl
  · exact h
  · exact h.congr_timers (engagePopup_frame _ _ _).2.2.1 (engagePopup_frame _ _ _).2.2.2.1

/-- The function `translateWordFromClipboard` keeps the alt-mode timer
invariant. -/
theorem translateWordFromClipboard_altTimerInv (trim : QString → QString) (env : Env)
    (m : ClipboardMode) (s : State) (h : AltTimerInv s) :
    AltTimerInv (translateWordFromClipboard trim env m s) := by
  unfold translateWordFromClipboard
  simp only
  split_ifs
  · exact h
  · exact AltTimerInv.of_stopped (engagePopup_frame _ _ _).2.2.1

/-- The function `altModePoll` keeps the alt-mode timer invariant. -/
theorem altModePoll_altTimerInv (cfg : Preferences) (env : Env) (s : State)
    (h : AltTimerInv s) : AltTimerInv (altModePoll cfg env s) := by
  unfold altModePoll
  split_ifs
  · exact AltTimerInv.of_stopped rfl
  · exact AltTimerInv.of_stopped (engagePopup_frame _ _ _).2.2.1
  · exact h

/-- The more-results menu only adds collaborator calls. -/
theorem on_wordListButton_clicked_eq (results : List (QString × Bool)) (choice : Option Nat)
    (s t : State) (h : on_wordListButton_clicked results choice s = some t) :
    t = { s with effects := t.effects } := by
  unfold on_wordListButton_clicked at h
  split at h
  · cases h; rfl
  · split at h
    · cases h; rfl
    · split at h
      · cases h
      · simp only at h
        split at h <;> cases h <;> rfl

/-- Every event keeps the alt-mode timer invariant. -/
theorem step_altTimerInv (trim : QString → QString) (cfg : Preferences) (env : Env)
    (e : Event) (s : State) (h : AltTimerInv s) : AltTimerInv (step trim cfg env e s) := by
  cases e with
  | mouseHovered str => exact handleInputWord_altTimerInv trim cfg env str s h
  | clipboardChanged m =>
    simp only [step, clipboardChanged]
    split_ifs
    · exact h
    · exact handleInputWord_altTimerInv trim cfg env _ s h
  | translateWordFromClipboard m => exact translateWordFromClipboard_altTimerInv trim env m s h
  | engagePopup giveFocus =>
    exact h.congr_timers (engagePopup_frame _ _ _).2.2.1 (engagePopup_frame _ _ _).2.2.2.1
  | eventFilter watchedIsThis event =>
    simp only [step, eventFilter]
    cases event with
    | Other => split_ifs <;> exact h
    | MouseMove globalPos =>
      simp only
      split_ifs
      · exact h.congr_timers (uninterceptMouse_words _).2.2.1 (uninterceptMouse_words _).2.2.2
      all_goals first
        | exact h.congr_timers (hideWindow_words _).2.2.1 (hideWindow_words _).2.2.2
        | exact h.congr_timers rfl rfl
  | mousePressEvent globalPos =>
    simp only [step, mousePressEvent]
    split_ifs
    · exact h.congr_timers (hideWindow_words _).2.2.1 (hideWindow_words _).2.2.2
    · exact h
  | mouseMoveEvent buttons globalPos =>
    simp only [step, mouseMoveEvent]
    split_ifs <;> exact h
  | mouseReleaseEvent => exact h
  | leaveEvent =>
    simp only [step, leaveEvent]
    split_ifs <;> exact h
  | enterEvent =>
    simp only [step, enterEvent]
    split_ifs <;> exact h
  | pinButtonClicked checked =>
    exact h.congr_timers (pinButtonSignal_words checked s).2.2.1 (pinButtonSignal_words checked s).2.2.2
  | hideTimerTimeout =>
    simp only [step, hideTimerExpired]
    split_ifs
    · exact AltTimerInv.congr_timers (s := { s with hideTimer := false }) h
        (hideWindow_words _).2.2.1 (hideWindow_words _).2.2.2
    · exact h
    · exact h
  | altModeExpirationTimeout =>
    simp only [step, altModeExpired]
    split_ifs
    · exact AltTimerInv.of_stopped rfl
    · exact h
  | altModePollingTimeout =>
    simp only [step]
    split_ifs
    · exact altModePoll_altTimerInv cfg env s h
    · exact h
  | escapePressed =>
    simp only [step, escapePressed]
    split_ifs
    · exact h.congr_timers (hideWindow_words _).2.2.1 (hideWindow_words _).2.2.2
    · exact h
  | prefixMatchFinished errorString results =>
    simp only [step, prefixMatchFinished]
    split_ifs <;> exact h
  | wordListButtonClicked results choice =>
    simp only [step]
    cases hr : on_wordListButton_clicked results choice s with
    | none => exact h
    | some t =>
      rw [Option.getD_some, on_wordListButton_clicked_eq results choice s t hr]
      exact h
  | pronounceButtonClicked => exact h
  | pageLoaded =>
    simp only [step, pageLoaded]
    split_ifs <;> exact h
  | currentGroupChanged group =>
    simp only [step, currentGroupChanged]
    cases hv : s.visible <;> simp only [initiateTranslation, State.emit] <;> exact h
  | enableScanning =>
    simp only [step, enableScanning]
    split_ifs <;> exact h
  | disableScanning =>
    simp only [step, disableScanning]
    split_ifs <;> exact h

/-- Every run keeps the alt-mode timer invariant. -/
theorem run_altTimerInv (trim : QString → QString) (trace : List (Preferences × Env × Event))
    (s : State) (h : AltTimerInv s) : AltTimerInv (run trim s trace) := by
  induction trace generalizing s with
  | nil => exact h
  | cons a rest ih =>
    obtain ⟨cfg, env, e⟩ := a
    exact ih _ (step_altTimerInv trim cfg env e s h)

/-- C15 (alt-mode timer invariant), as amended: in every state reachable from
the initial state by any sequence of events, if the polling timer is running
then the expiration timer is running too.  The pending word can be empty while
the polling timer runs; the next poll tick then stops both timers and changes
nothing else. -/
theorem C15_polling_implies_expiration (trim : QString → QString) (size : QSize) (group : Nat)
    (trace : List (Preferences × Env × Event)) :
    ((run trim (State.initial size group) trace).altModePollingTimer = true →
        (run trim (State.initial size group) trace).altModeExpirationTimer = true)
      ∧ (∀ (cfg : Preferences) (env : Env),
          (run trim (State.initial size group) trace).altModePollingTimer = true →
          (run trim (State.initial size group) trace).pendingInputWord = [] →
          step trim cfg env Event.altModePollingTimeout
              (run trim (State.initial size group) trace) =
            { run trim (State.initial size group) trace with
                altModePollingTimer := false, altModeExpirationTimer := false }) := by
  refine ⟨run_altTimerInv trim trace (State.initial size group) (fun h => by cases h), ?_⟩
  intro cfg env hp hw
  simp [step, altModePoll, hp, hw]

/-- Witness for C15: after "cat" was hovered under gating with alt mode, both
timers run. -/
theorem C15_polling_implies_expiration_witness :
    (run id (State.initial ⟨300, 200⟩ 0)
      [(sampleAltCfg, sampleEnv, Event.mouseHovered sampleCat)]).altModeExpirationTimer
      = true :=
  (C15_polling_implies_expiration id ⟨300, 200⟩ 0
    [(sampleAltCfg, sampleEnv, Event.mouseHovered sampleCat)]).1 (by decide)

/-- C15 as stated fails: "cat" is hovered and deferred, then the hotkey reads
an empty clipboard; `translateWordFromClipboard` empties the pending word and
returns before it stops the timers, so the polling timer runs with no word
pending. -/
theorem C15_pending_nonempty_counterexample :
    (run id (State.initial ⟨300, 200⟩ 0) sampleEmptyReadTrace).altModePollingTimer = true ∧
      (run id (State.initial ⟨300, 200⟩ 0) sampleEmptyReadTrace).pendingInputWord = [] ∧
      ¬ ((run id (State.initial ⟨300, 200⟩ 0) sampleEmptyReadTrace).altModePollingTimer = true →
          (run id (State.initial ⟨300, 200⟩ 0) sampleEmptyReadTrace).altModeExpirationTimer
              = true ∧
            (run id (State.initial ⟨300, 200⟩ 0) sampleEmptyReadTrace).pendingInputWord
              ≠ []) := by
  decide

/-! ## The grace radius -/

/-- Starting the hide countdown changes the state. -/
theorem startHideTimer_ne (s : State) : startHideTimer s ≠ s := by
  intro h
  have h2 : (startHideTimer s).hideTimerStarts = s.hideTimerStarts := by rw [h]
  simp [startHideTimer] at h2

/-- C16 (grace radius decision).  For an intercepted pointer motion outside
the popup's own bounds, with `r = 60` if `mouseEnteredOnce` is false and
`r = 0` if it is true, `eventFilter` changes the state if and only if the
event's target is the popup itself and the position is outside the frame
widened by `r` on all four sides.  When it does, the popup is hidden at once
if `mouseEnteredOnce` is false (interception released, countdown inactive),
and only the hide countdown is started if it is true (the popup stays as
visible as it was).  In all other cases nothing changes. -/
theorem C16_grace_radius_decision (watchedIsThis : Bool) (p : QPoint) (s : State)
    (hi : s.mouseIntercepted = true) (hg : s.geometry.contains p = false) :
    (eventFilter watchedIsThis (QEvent.MouseMove p) s ≠ s ↔
        (watchedIsThis = true ∧
          (s.frameGeometry.adjusted (-(if s.mouseEnteredOnce then 0 else 60))
            (-(if s.mouseEnteredOnce then 0 else 60)) (if s.mouseEnteredOnce then 0 else 60)
            (if s.mouseEnteredOnce then 0 else 60)).contains p = false))
      ∧ (watchedIsThis = true → s.mouseEnteredOnce = false →
          (s.frameGeometry.adjusted (-60) (-60) 60 60).contains p = false →
          eventFilter watchedIsThis (QEvent.MouseMove p) s = hideWindow s ∧
            (eventFilter watchedIsThis (QEvent.MouseMove p) s).visible = false ∧
            (eventFilter watchedIsThis (QEvent.MouseMove p) s).mouseIntercepted = false ∧
            (eventFilter watchedIsThis (QEvent.MouseMove p) s).hideTimer = false)
      ∧ (watchedIsThis = true → s.mouseEnteredOnce = true →
          (s.frameGeometry.adjusted 0 0 0 0).contains p = false →
          eventFilter watchedIsThis (QEvent.MouseMove p) s =
              { s with hideTimer := true, hideTimerStarts := s.hideTimerStarts + 1 } ∧
            (eventFilter watchedIsThis (QEvent.MouseMove p) s).hideTimer = true ∧
            (eventFilter watchedIsThis (QEvent.MouseMove p) s).visible = s.visible ∧
            (eventFilter watchedIsThis (QEvent.MouseMove p) s).mouseIntercepted = true ∧
            (eventFilter watchedIsThis (QEvent.MouseMove p) s).mouseEnteredOnce = true)
      ∧ (¬ (watchedIsThis = true ∧
            (s.frameGeometry.adjusted (-(if s.mouseEnteredOnce then 0 else 60))
              (-(if s.mouseEnteredOnce then 0 else 60)) (if s.mouseEnteredOnce then 0 else 60)
              (if s.mouseEnteredOnce then 0 else 60)).contains p = false) →
          eventFilter watchedIsThis (QEvent.MouseMove p) s = s) := by
  have key := eventFilter_outside watchedIsThis p s hi hg
  have hhide : hideWindow s ≠ s := by
    intro h
    have h2 := (hideWindow_fields s).1
    rw [h, hi] at h2
    cases h2
  refine ⟨?_, ?_, ?_, ?_⟩
  · constructor
    · intro hne
      by_contra hc
      rw [if_neg hc] at key
      exact hne key
    · intro hc
      rw [if_pos hc] at key
      rw [key]
      split_ifs
      · exact startHideTimer_ne s
      · exact hhide
  · intro hw he hc
    have h : eventFilter watchedIsThis (QEvent.MouseMove p) s = hideWindow s := by
      rw [key]
      simp [hw, he, hc]
    rw [h]
    exact ⟨rfl, (hideWindow_fields s).2.2.1, (hideWindow_fields s).1, (hideWindow_fields s).2.1⟩
  · intro hw he hc
    have h : eventFilter watchedIsThis (QEvent.MouseMove p) s = startHideTimer s := by
      rw [key]
      simp [hw, he, hc]
    rw [h]
    exact ⟨rfl, rfl, rfl, hi, he⟩
  · intro hc
    rw [key, if_neg hc]

/-- Witness for C16: the shown sample popup never entered, a motion aimed at
it 61 units left of its frame hides it at once. -/
theorem C16_grace_radius_decision_witness :
    eventFilter true (QEvent.MouseMove ⟨1535, 520⟩) sampleShown = hideWindow sampleShown :=
  ((C16_grace_radius_decision true ⟨1535, 520⟩ sampleShown (by decide) (by decide)).2.1
    rfl (by decide) (by decide)).1

/-! ## Placement at the screen edges -/

/-- C17 (preferred placement whenever it fits) at its failing input: on the
1920x1080 screen at the origin, with the cursor at `(1616, 865)`, the 300x200
popup placed at `(1620, 880)` would fit (`1616 + 4 + 300 <= 0 + 1920` and
`865 + 15 + 200 <= 0 + 1080`), yet `engagePopup` puts the hidden, unpinned
popup at `(1312, 650)`, left of and above the cursor: it compares with
`topRight().x() = 1919` and `bottomLeft().y() = 1079`. -/
theorem C17_exact_fit_rejected :
    sampleState.visible = false ∧ sampleState.pinChecked = false ∧
      sampleEdgeEnv.cursorPos.x + 4 + sampleState.size.width
        ≤ sampleEdgeEnv.screenGeometry.x + sampleEdgeEnv.screenGeometry.width ∧
      sampleEdgeEnv.cursorPos.y + 15 + sampleState.size.height
        ≤ sampleEdgeEnv.screenGeometry.y + sampleEdgeEnv.screenGeometry.height ∧
      (engagePopup sampleEdgeEnv false sampleState).pos = ⟨1312, 650⟩ ∧
      (engagePopup sampleEdgeEnv false sampleState).pos.x ≠ sampleEdgeEnv.cursorPos.x + 4 ∧
      (engagePopup sampleEdgeEnv false sampleState).pos.y ≠ sampleEdgeEnv.cursorPos.y + 15 := by
  decide

/-- C19 (placed popup stays on screen).  For a screen with origin `(X, Y)` and
size `(W, H)`, a popup of size `(w, h)` with `w <= W` and `h <= H` (in
particular one with `0 < w <= W` and `0 < h <= H`), and a cursor inside the
screen, the position `(x, y)` to which `engagePopup` moves a hidden, unpinned
popup satisfies `X <= x`, `x + w <= X + W`, `Y <= y` and `y + h <= Y + H`,
whichever branches are taken. -/
theorem C19_placed_popup_on_screen (env : Env) (giveFocus : Bool) (s : State)
    (hv : s.visible = false) (hp : s.pinChecked = false)
    (hwW : s.size.width ≤ env.screenGeometry.width)
    (hhH : s.size.height ≤ env.screenGeometry.height)
    (hx1 : env.screenGeometry.x ≤ env.cursorPos.x)
    (hx2 : env.cursorPos.x ≤ env.screenGeometry.x + env.screenGeometry.width - 1)
    (hy1 : env.screenGeometry.y ≤ env.cursorPos.y)
    (hy2 : env.cursorPos.y ≤ env.screenGeometry.y + env.screenGeometry.height - 1) :
    env.screenGeometry.x ≤ (engagePopup env giveFocus s).pos.x
      ∧ (engagePopup env giveFocus s).pos.x + s.size.width
          ≤ env.screenGeometry.x + env.screenGeometry.width
      ∧ env.screenGeometry.y ≤ (engagePopup env giveFocus s).pos.y
      ∧ (engagePopup env giveFocus s).pos.y + s.size.height
          ≤ env.screenGeometry.y + env.screenGeometry.height := by
  rw [engagePopup_pos env giveFocus s hv hp]
  have hdx : Int.tdiv (env.screenGeometry.width - s.size.width) 2 =
      (env.screenGeometry.width - s.size.width) / 2 :=
    Int.tdiv_eq_ediv (by omega) (by omega)
  have hdy : Int.tdiv (env.screenGeometry.height - s.size.height) 2 =
      (env.screenGeometry.height - s.size.height) / 2 :=
    Int.tdiv_eq_ediv (by omega) (by omega)
  rw [hdx, hdy]
  simp only [QRect.topRight, QRect.bottomLeft, QRect.x, QRect.y, QRect.width, QRect.height]
    at *
  refine ⟨?_, ?_, ?_, ?_⟩ <;> split_ifs <;> omega

/-- Witness for C19: the sample popup, placed for the cursor at
`(1900, 500)`, lies within the 1920x1080 screen. -/
theorem C19_placed_popup_on_screen_witness :
    sampleEnv.screenGeometry.x ≤ (engagePopup sampleEnv false sampleState).pos.x
      ∧ (engagePopup sampleEnv false sampleState).pos.x + sampleState.size.width
          ≤ sampleEnv.screenGeometry.x + sampleEnv.screenGeometry.width
      ∧ sampleEnv.screenGeometry.y ≤ (engagePopup sampleEnv false sampleState).pos.y
      ∧ (engagePopup sampleEnv false sampleState).pos.y + sampleState.size.height
          ≤ sampleEnv.screenGeometry.y + sampleEnv.screenGeometry.height :=
  C19_placed_popup_on_screen sampleEnv false sampleState (by decide) (by decide) (by decide)
    (by decide) (by decide) (by decide) (by decide) (by decide)

/-! ## No dangling grab -/

/-- C18 (no dangling grab).  In every state reachable from the initial state
by any sequence of events, interception implies that the popup is visible and
unpinned; put the other way round, a hidden or pinned popup is not
intercepting.  And `hideWindow`, from any state, leaves interception off, the
hide countdown inactive and the popup hidden, releasing the grab if there was
one. -/
theorem C18_no_dangling_grab (trim : QString → QString) (size : QSize) (group : Nat)
    (trace : List (Preferences × Env × Event)) :
    ((run trim (State.initial size group) trace).mouseIntercepted = true →
        (run trim (State.initial size group) trace).visible = true ∧
          (run trim (State.initial size group) trace).pinChecked = false)
      ∧ (((run trim (State.initial size group) trace).visible = false ∨
            (run trim (State.initial size group) trace).pinChecked = true) →
          (run trim (State.initial size group) trace).mouseIntercepted = false)
      ∧ (∀ t : State,
          (hideWindow t).mouseIntercepted = false ∧ (hideWindow t).hideTimer = false ∧
            (hideWindow t).visible = false ∧
            (t.mouseIntercepted = true → Effect.releaseMouse ∈ (hideWindow t).effects)) := by
  have h := run_grabInv trim trace (State.initial size group) (fun h => by cases h)
  refine ⟨h, ?_, ?_⟩
  · intro hvp
    cases hi : (run trim (State.initial size group) trace).mouseIntercepted
    · rfl
    · have h2 := h hi
      rcases hvp with hv | hp
      · rw [h2.1] at hv
        cases hv
      · rw [h2.2] at hp
        cases hp
  · intro t
    refine ⟨(hideWindow_fields t).1, (hideWindow_fields t).2.1, (hideWindow_fields t).2.2.1, ?_⟩
    intro hi
    simp [hideWindow, uninterceptMouse, State.emit, hi]

/-- Witness for C18: once the shown sample popup is pinned, nothing is
intercepted. -/
theorem C18_no_dangling_grab_witness :
    (run id (State.initial ⟨300, 200⟩ 0)
      [(sampleCfg, sampleEnv, Event.mouseHovered sampleCat),
       (sampleCfg, sampleEnv, Event.pinButtonClicked true)]).mouseIntercepted = false :=
  (C18_no_dangling_grab id ⟨300, 200⟩ 0
    [(sampleCfg, sampleEnv, Event.mouseHovered sampleCat),
     (sampleCfg, sampleEnv, Event.pinButtonClicked true)]).2.1 (Or.inr (by decide))

/-! ## Interception and the entered flag -/

/-- The never-entered invariant only looks at two fields. -/
theorem NeverEnteredInv.congr_flags {s t : State} (h : NeverEnteredInv s)
    (hi : t.mouseIntercepted = s.mouseIntercepted)
    (he : t.mouseEnteredOnce = s.mouseEnteredOnce) : NeverEnteredInv t := by
  unfold NeverEnteredInv at *
  rw [hi, he]
  exact h

/-- A state that is not intercepting satisfies the never-entered invariant. -/
theorem NeverEnteredInv.of_released {t : State} (hi : t.mouseIntercepted = false) :
    NeverEnteredInv t := by
  intro h
  rw [hi] at h
  cases h

/-- The function `engagePopup` keeps the never-entered invariant. -/
theorem engagePopup_neverEntered (env : Env) (giveFocus : Bool) (s : State)
    (h : NeverEnteredInv s) : NeverEnteredInv (engagePopup env giveFocus s) := by
  unfold NeverEnteredInv at *
  cases hv : s.visible <;> cases hp : s.pinChecked <;> cases hi : s.mouseIntercepted <;>
    cases giveFocus <;>
    simp_all [engagePopup, initiateTranslation, interceptMouse, showWidget, moveWidget,
      State.emit]

/-- The function `eventFilter` keeps the never-entered invariant. -/
theorem eventFilter_neverEntered (watchedIsThis : Bool) (event : QEvent) (s : State)
    (h : NeverEnteredInv s) : NeverEnteredInv (eventFilter watchedIsThis event s) := by
  unfold eventFilter
  split
  · cases event with
    | Other => exact h
    | MouseMove globalPos =>
      simp only
      split_ifs
      · exact NeverEnteredInv.of_released (uninterceptMouse_fields _).1
      all_goals first
        | exact NeverEnteredInv.of_released (hideWindow_fields _).1
        | exact h.congr_flags rfl rfl
  · exact h

/-- The pin button's signal keeps the never-entered invariant when it flips
the checkbox of a state that satisfies the grab invariant. -/
theorem pinButtonSignal_neverEntered (checked : Bool) (s : State) (hg : GrabInv s)
    (hf : (s.pinChecked != checked) = true) : NeverEnteredInv (pinButtonSignal checked s) := by
  apply NeverEnteredInv.of_released
  unfold GrabInv at hg
  cases checked <;> cases hi : s.mouseIntercepted <;> cases hp : s.pinChecked <;>
    simp_all [pinButtonSignal, pinButtonClicked, uninterceptMouse, setWindowFlags, showWidget,
      State.emit]

/-- The function `handleInputWord` keeps the never-entered invariant. -/
theorem handleInputWord_neverEntered (trim : QString → QString) (cfg : Preferences)
    (env : Env) (str : QString) (s : State) (h : NeverEnteredInv s) :
    NeverEnteredInv (handleInputWord trim cfg env str s) := by
  unfold handleInputWord
  simp only
  split_ifs
  · exact h
  · exact h
  · exact h
  · exact h
  · exact engagePopup_neverEntered _ _ _ (h.congr_flags rfl rfl)

/-- Every event that respects the pin checkbox keeps the never-entered
invariant, given the grab invariant. -/
theorem step_neverEntered (trim : QString → QString) (cfg : Preferences) (env : Env)
    (e : Event) (s : State) (hg : GrabInv s) (h : NeverEnteredInv s)
    (hf : e.flipsPin s = true) : NeverEnteredInv (step trim cfg env e s) := by
  cases e with
  | mouseHovered str => exact handleInputWord_neverEntered trim cfg env str s h
  | clipboardChanged m =>
    simp only [step, clipboardChanged]
    split_ifs
    · exact h
    · exact handleInputWord_neverEntered trim cfg env _ s h
  | translateWordFromClipboard m =>
    simp only [step, translateWordFromClipboard]
    split_ifs
    · exact h
    · exact engagePopup_neverEntered _ _ _ (h.congr_flags rfl rfl)
  | engagePopup giveFocus => exact engagePopup_neverEntered env giveFocus s h
  | eventFilter watchedIsThis event => exact eventFilter_neverEntered watchedIsThis event s h
  | mousePressEvent globalPos =>
    simp only [step, mousePressEvent]
    split_ifs
    · exact NeverEnteredInv.of_released (hideWindow_fields _).1
    · exact h
  | mouseMoveEvent buttons globalPos =>
    simp only [step, mouseMoveEvent]
    split_ifs <;> exact h
  | mouseReleaseEvent => exact h
  | leaveEvent =>
    simp only [step, leaveEvent]
    split_ifs <;> exact h.congr_flags rfl rfl
  | enterEvent =>
    simp only [step, enterEvent]
    split_ifs <;> exact h
  | pinButtonClicked checked => exact pinButtonSignal_neverEntered checked s hg hf
  | hideTimerTimeout =>
    simp only [step, hideTimerExpired]
    split_ifs
    · exact NeverEnteredInv.of_released (hideWindow_fields _).1
    · exact h
    · exact h
  | altModeExpirationTimeout =>
    simp only [step, altModeExpired]
    split_ifs <;> exact h
  | altModePollingTimeout =>
    simp only [step, altModePoll]
    split_ifs
    · exact h
    · exact engagePopup_neverEntered _ _ _ (h.congr_flags rfl rfl)
    · exact h
    · exact h
  | escapePressed =>
    simp only [step, escapePressed]
    split_ifs
    · exact NeverEnteredInv.of_released (hideWindow_fields _).1
    · exact h
  | prefixMatchFinished errorString results =>
    simp only [step, prefixMatchFinished]
    split_ifs <;> exact h
  | wordListButtonClicked results choice =>
    simp only [step]
    cases hr : on_wordListButton_clicked results choice s with
    | none => exact h
    | some t =>
      rw [Option.getD_some, on_wordListButton_clicked_eq results choice s t hr]
      exact h
  | pronounceButtonClicked => exact h
  | pageLoaded =>
    simp only [step, pageLoaded]
    split_ifs <;> exact h
  | currentGroupChanged group =>
    simp only [step, currentGroupChanged]
    cases hv : s.visible <;> simp only [initiateTranslation, State.emit] <;> exact h
  | enableScanning =>
    simp only [step, enableScanning]
    split_ifs <;> exact h
  | disableScanning =>
    simp only [step, disableScanning]
    split_ifs <;> exact h

/-- Every run whose pin-button events flip the checkbox keeps the grab
invariant and the never-entered invariant. -/
theorem run_neverEntered (trim : QString → QString) (trace : List (Preferences × Env × Event))
    (s : State) (hg : GrabInv s) (h : NeverEnteredInv s) (hf : pinFlips trim s trace = true) :
    NeverEnteredInv (run trim s trace) := by
  induction trace generalizing s with
  | nil => exact h
  | cons a rest ih =>
    obtain ⟨cfg, env, e⟩ := a
    simp only [pinFlips, Bool.and_eq_true] at hf
    exact ih _ (step_grabInv trim cfg env e s hg) (step_neverEntered trim cfg env e s hg h hf.1)
      hf.2

/-- Neither `uninterceptMouse` nor `hideWindow` starts the hide countdown. -/
theorem hideWindow_hideTimerStarts (s : State) :
    (uninterceptMouse s).hideTimerStarts = s.hideTimerStarts ∧
      (hideWindow s).hideTimerStarts = s.hideTimerStarts := by
  cases hi : s.mouseIntercepted <;> simp [hideWindow, uninterceptMouse, State.emit, hi]

/-- In a state that satisfies the never-entered invariant `eventFilter` does
not start the hide countdown. -/
theorem eventFilter_hideTimerStarts (watchedIsThis : Bool) (event : QEvent) (s : State)
    (h : NeverEnteredInv s) :
    (eventFilter watchedIsThis event s).hideTimerStarts = s.hideTimerStarts := by
  cases hi : s.mouseIntercepted
  · simp [eventFilter, hi]
  · cases event with
    | Other => simp [eventFilter, hi]
    | MouseMove globalPos =>
      cases hg : s.geometry.contains globalPos
      · rw [eventFilter_outside watchedIsThis globalPos s hi hg]
        simp only [h hi, Bool.false_eq_true, if_false]
        split_ifs
        · exact (hideWindow_hideTimerStarts _).2
        · rfl
      · unfold eventFilter
        simp only [hi, hg, if_true]
        exact (hideWindow_hideTimerStarts _).1

/-- C20 (interception implies never-entered).  In every state reachable from
the initial state by a sequence of events in which each `clicked( c )` of the
pin button flips the checkbox, `mouseIntercepted` implies that
`mouseEnteredOnce` is false.  So for an intercepted motion outside the popup's
own bounds `eventFilter` decides with the radius 60, hiding the popup at once
or doing nothing, and it never starts the hide countdown. -/
theorem C20_interception_implies_never_entered (trim : QString → QString) (size : QSize)
    (group : Nat) (trace : List (Preferences × Env × Event))
    (hf : pinFlips trim (State.initial size group) trace = true) :
    ((run trim (State.initial size group) trace).mouseIntercepted = true →
        (run trim (State.initial size group) trace).mouseEnteredOnce = false)
      ∧ (∀ (watchedIsThis : Bool) (p : QPoint),
          (run trim (State.initial size group) trace).mouseIntercepted = true →
          (run trim (State.initial size group) trace).geometry.contains p = false →
          eventFilter watchedIsThis (QEvent.MouseMove p)
              (run trim (State.initial size group) trace) =
            if watchedIsThis = true ∧
                ((run trim (State.initial size group) trace).frameGeometry.adjusted
                  (-60) (-60) 60 60).contains p = false then
              hideWindow (run trim (State.initial size group) trace)
            else run trim (State.initial size group) trace)
      ∧ (∀ (watchedIsThis : Bool) (event : QEvent),
          (eventFilter watchedIsThis event
              (run trim (State.initial size group) trace)).hideTimerStarts =
            (run trim (State.initial size group) trace).hideTimerStarts) := by
  have h := run_neverEntered trim trace (State.initial size group) (fun h => by cases h)
    (fun h => by cases h) hf
  refine ⟨h, ?_, fun w ev => eventFilter_hideTimerStarts w ev _ h⟩
  intro w p hi hg
  rw [eventFilter_outside w p _ hi hg]
  simp [h hi]

/-- Witness for C20: "cat" is hovered, the popup is pinned, unpinned and
closed, and "dog" is hovered; the popup then intercepts with
`mouseEnteredOnce` false. -/
theorem C20_interception_implies_never_entered_witness :
    (run id (State.initial ⟨300, 200⟩ 0) samplePinTrace).mouseEnteredOnce = false :=
  (C20_interception_implies_never_entered id ⟨300, 200⟩ 0 samplePinTrace (by decide)).1
    (by decide)

end ScanPopup
